import Mathlib

/-
  Verification of the thrust-tester firmware core
  (auto_thrust_tester.ino) against its natural-language specification.

  Shallow embedding notes:
  * The build configuration of the source is modelled as shipped:
    AUTO_TEST defined, CONT_SYNC and DEBUG_MODE not defined,
    SAMPLE_MS = 250, TIME_AT_MAX_THROTTLE = 3000, MIN_TEST_FORCE = 50.
  * File names and text are modelled as `List Char`.
  * Force readings (HX711 floats) enter every decision only through the
    threshold comparison `abs(delta) > MIN_TEST_FORCE` and through being
    stored/printed verbatim, so they are modelled as integers supplied by
    the environment.
  * `millis()` and unsigned-long arithmetic are modelled with a global
    clock advanced by every `delay` call, reduced mod 2^32 where the C
    code subtracts unsigned longs.
  * Every C loop is bounded: the two polling loops of delayCheckButton
    advance `total` by 50 per iteration under the guard `total < dt`;
    the rampServo loop moves `servoPos` one unit toward its target each
    iteration.  They are written as structural recursion on a fuel value
    that provably dominates the iteration count (dt+1, resp. the initial
    distance), so the fuel never runs out before the loop guard fails.
    The genuinely unbounded operator-confirmation loops (setupCard,
    getFileName on exhaustion, the idle prompt of loop()) take an
    explicit fuel argument and return `none` when the loop has not
    exited within `fuel` iterations.
-/

/-! ## Character and number helpers (ctype / atoi / snprintf "%d") -/

/-- ASCII `isdigit`. -/
def isDigitChar (c : Char) : Bool := 48 ≤ c.toNat && c.toNat ≤ 57

/-- ASCII `isspace` (the characters C's atoi skips). -/
def isSpaceChar (c : Char) : Bool :=
  c.toNat = 32 || (9 ≤ c.toNat && c.toNat ≤ 13)

/-- Decimal digit to its ASCII character (used by `%d` rendering);
only applied to values `< 10`. -/
def digitChar : Nat → Char
  | 0 => '0' | 1 => '1' | 2 => '2' | 3 => '3' | 4 => '4'
  | 5 => '5' | 6 => '6' | 7 => '7' | 8 => '8' | _ => '9'

/-- Decimal rendering of a natural number, most significant digit first,
as produced by `snprintf` with `%d`.  Structural recursion on a fuel
bound that dominates the number of digits. -/
def decCharsAux : Nat → Nat → List Char
  | 0, _ => []
  | fuel+1, n => if n < 10 then [digitChar n]
                 else decCharsAux fuel (n / 10) ++ [digitChar (n % 10)]

def decChars (n : Nat) : List Char := decCharsAux (n + 1) n

/-- `%d` rendering of a C int. -/
def intDecChars (n : Int) : List Char :=
  if n < 0 then '-' :: decChars n.natAbs else decChars n.toNat

/-- `snprintf(newFileName, 10, "t_%d.csv", n)`: the 10-byte buffer keeps
at most 9 characters of the rendered name. -/
def fmtFileNum (n : Int) : List Char :=
  (('t' :: '_' :: intDecChars n) ++ ['.', 'c', 's', 'v']).take 9

/-- `atoi` digit-accumulation loop: consume leading digits, stop at the
first non-digit. -/
def atoiLoop : List Char → Int → Int
  | [], acc => acc
  | c :: t, acc =>
    if isDigitChar c then atoiLoop t (acc * 10 + ((c.toNat : Int) - 48))
    else acc

/-- C `atoi`: skip leading whitespace, optional sign, then digits. -/
def atoiChars (s : List Char) : Int :=
  match s.dropWhile isSpaceChar with
  | [] => 0
  | c :: t =>
    if c = '-' then -(atoiLoop t 0)
    else if c = '+' then atoiLoop t 0
    else atoiLoop (c :: t) 0

/-! ## isMatchingFormat / getFileNum (source lines 437-487) -/

/-- `isMatchingFormat`: accept names of total length 7..10 that start
with `t_`, end with `.csv`, and have only digits in between. -/
def isMatchingFormat (fileName : List Char) : Bool :=
  let nameLength := fileName.length
  if nameLength < 7 ∨ 10 < nameLength then false
  else if fileName.take 2 ≠ ['t', '_'] then false
  else if fileName.drop (nameLength - 4) ≠ ['.', 'c', 's', 'v'] then false
  else ((fileName.drop 2).take (nameLength - 6)).all isDigitChar

/-- `strstr(hay, needle)`: index of the first occurrence of `needle`
in `hay`, `none` when absent (NULL). -/
def findSub (hay needle : List Char) : Option Nat :=
  match hay with
  | [] => if needle = [] then some 0 else none
  | _ :: t =>
    if needle.isPrefixOf hay then some 0
    else (findSub t needle).map (· + 1)

/-- `getFileNum`: the characters strictly between index 2 and the first
occurrence of `.csv` are run through `atoi`; 0 when that span is empty
or `.csv` does not occur. -/
def getFileNum (fileName : List Char) : Int :=
  match findSub fileName ['.', 'c', 's', 'v'] with
  | none => 0
  | some e => if 2 < e then atoiChars ((fileName.drop 2).take (e - 2)) else 0

/-- Modelled from the spec's words only (refinement comparison for the
filename matcher): a name of the shape `t_` + between `lo` and `hi`
decimal digits + `.csv`.  Used to compare the code's matcher against
the spec's "1 to 3 digits" description. -/
def specFormat (lo hi : Nat) (name : List Char) : Bool :=
  match name with
  | a :: b :: rest =>
    if a = 't' ∧ b = '_' then
      let ds := rest.take (rest.length - 4)
      if rest.drop (rest.length - 4) = ['.', 'c', 's', 'v']
         ∧ lo ≤ ds.length ∧ ds.length ≤ hi
      then ds.all isDigitChar
      else false
    else false
  | _ => false

/-! ## System state and environment -/

/-- The environment feeding the firmware: button reads (true = HIGH =
released; the k-th `digitalRead(BUTTON_PIN)` of the run returns
`button k`), scale reads, the directory listing used by getFileName
(names as read into its 10-byte buffer; `none` models a failed
directory open), the result of `file.open(activeFileName, FILE_WRITE)`,
and the result of `SD.begin`. -/
structure Env where
  button : Nat → Bool
  force : Nat → Int
  dir : Option (List (List Char))
  openOk : Bool
  sdOk : Bool

/-- The global variables of the sketch (plus the bookkeeping indices
into the environment streams, the clock, the rows handed to
`writeData`, and a ghost counter of `checkServo` invocations). -/
structure Sys where
  continueFlag : Bool
  buttonState : Bool
  servoPos : Int
  servoStep : Int
  servoChecked : Bool
  servoActive : Bool
  scaleActive : Bool
  cardExists : Bool
  maxFileNum : Int
  activeFileName : List Char
  fileOpen : Bool
  fileRows : List (Nat × Int × Int)
  maxForce : Int
  unitForce : Int
  scaleStartTime : Nat
  readTime : Nat
  clock : Nat
  btnIdx : Nat
  forceIdx : Nat
  probeRuns : Nat
deriving DecidableEq

/-- State after `setup()` under AUTO_TEST (servoChecked=false,
servoActive=true), before the card mount. -/
def sysInit : Sys :=
  ⟨true, true, 0, 0, false, true, false, false, 0, [], false, [],
   0, 0, 0, 0, 0, 0, 0, 0⟩

/-- `delay(n)` advances the clock. -/
def delayMs (n : Nat) (s : Sys) : Sys := { s with clock := s.clock + n }

def u32Mod : Nat := 4294967296

/-- Unsigned-long subtraction `a - b` (32-bit wraparound). -/
def usub32 (a b : Nat) : Nat := (a % u32Mod + u32Mod - b % u32Mod) % u32Mod

/-! ## delayCheckButton (source lines 197-230) -/

/-- First polling loop of delayCheckButton:
`while (total < dt && continueFlag) { read; if LOW {flag=false; break}
else {delay(min(50,dt-total)); total+=50;} }`.
Fuel dominates the iteration count (total grows by 50 under
`total < dt`). -/
def dcbLoop1 : Nat → Nat → Nat → Env → Sys → Sys × Nat
  | 0, _, total, _, s => (s, total)
  | fuel+1, dt, total, env, s =>
    if total < dt ∧ s.continueFlag = true then
      let b := env.button s.btnIdx
      let s1 : Sys := { s with btnIdx := s.btnIdx + 1, buttonState := b }
      if b = false then ({ s1 with continueFlag := false }, total)
      else dcbLoop1 fuel dt (total + 50) env (delayMs (min 50 (dt - total)) s1)
    else (s, total)

/-- Second polling loop of delayCheckButton:
`while (total < dt && (full || buttonState == LOW)) { read;
if HIGH return; else {delay(min(50,dt-total)); total+=50;} }`. -/
def dcbLoop2 : Nat → Nat → Bool → Nat → Env → Sys → Sys
  | 0, _, _, _, _, s => s
  | fuel+1, dt, full, total, env, s =>
    if total < dt ∧ (full = true ∨ s.buttonState = false) then
      let b := env.button s.btnIdx
      let s1 : Sys := { s with btnIdx := s.btnIdx + 1, buttonState := b }
      if b = true then s1
      else dcbLoop2 fuel dt full (total + 50) env (delayMs (min 50 (dt - total)) s1)
    else s

/-- `delayCheckButton(dt, full)`.  Sets `buttonState = HIGH`, runs the
two polling loops. -/
def delayCheckButton (dt : Nat) (full : Bool) (env : Env) (s : Sys) : Sys :=
  let p := dcbLoop1 (dt + 1) dt 0 env { s with buttonState := true }
  dcbLoop2 (dt + 1) dt full p.2 env p.1

/-! ## rampServo / printLcdScroll (source lines 167-194, 290-304) -/

/-- Loop of rampServo.  The C code fixes the unit step from the initial
sign of `setPos - servoPos`; since the position moves monotonically
toward `setPos` one unit at a time and the loop stops at equality, the
sign recomputed each iteration equals the initial one, and the loop
runs exactly `|setPos - servoPos₀|` iterations unless cancellation
stops it, so that fuel value is exact. -/
def rampLoop : Nat → Int → Nat → Env → Sys → Sys
  | 0, _, _, _, s => s
  | fuel+1, setPos, dtStep, env, s =>
    if s.servoPos ≠ setPos ∧ s.continueFlag = true then
      let step : Int := if setPos - s.servoPos < 0 then -1 else 1
      rampLoop fuel setPos dtStep env
        (delayCheckButton dtStep false env { s with servoPos := s.servoPos + step })
    else s

def rampServo (setPos : Int) (dtStep : Nat) (env : Env) (s : Sys) : Sys :=
  rampLoop (setPos - s.servoPos).natAbs setPos dtStep env s

/-- `printLcdScroll` on a message of `chunks` two-line segments:
each segment is shown and followed by `delayCheckButton(2000, false)`. -/
def lcdScroll : Nat → Env → Sys → Sys
  | 0, _, s => s
  | k+1, env, s => lcdScroll k env (delayCheckButton 2000 false env s)

/-! ## checkServo (source lines 307-344) -/

/-- `checkServo()`.  Returns (result, state).  The ghost counter
`probeRuns` is incremented at entry.  The trailing
`continueFlag = true;` of the C function sits after all return
statements and is unreachable, so it does not appear here. -/
def checkServo (env : Env) (s : Sys) : Bool × Sys :=
  let s := { s with probeRuns := s.probeRuns + 1, continueFlag := true }
  let s := delayMs 2000 s
  let s := delayCheckButton 2000 false env s
  let startForce := env.force s.forceIdx
  let s : Sys := { s with forceIdx := s.forceIdx + 1 }
  let s := rampServo 90 60 env s
  let s := delayCheckButton 1000 false env s
  let s : Sys := { s with unitForce := env.force s.forceIdx,
                          forceIdx := s.forceIdx + 1 }
  let s := rampServo 0 60 env s
  let s : Sys := { s with servoPos := 0 }
  if s.continueFlag = false then (false, delayMs 1000 s)
  else if 50 < |s.unitForce - startForce| then (true, delayMs 1000 s)
  else (false, delayMs 1000 s)

/-! ## getFileName (source lines 372-434) and setupCard (233-249) -/

/-- One scan step of the directory crawl:
`if (isMatchingFormat(name)) maxFileNum = max(getFileNum(name), maxFileNum)`.
Names are as read into the 10-byte `char fileName[10]` buffer
(at most 9 characters). -/
def scanEntry (m : Int) (nm : List Char) : Int :=
  let nm9 := nm.take 9
  if isMatchingFormat nm9 = true then max (getFileNum nm9) m else m

def scanMax (entries : List (List Char)) : Int := entries.foldl scanEntry 0

/-- The cached maximum after the (at most one) directory crawl:
the crawl runs only while `maxFileNum == 0`; a failed directory open
leaves it unchanged. -/
def scannedNum (env : Env) (s : Sys) : Int :=
  if s.maxFileNum = 0 then
    match env.dir with
    | some entries => scanMax entries
    | none => 0
  else s.maxFileNum

/-- `while (continueFlag) { printLcdScroll("File number\ntoo high!\n...") }`
— the exhaustion prompt is a 6-line message, i.e. 3 scroll segments per
iteration.  `none` when the loop has not exited within `fuel`
iterations. -/
def fileWaitLoop : Nat → Env → Sys → Option Sys
  | 0, _, _ => none
  | fuel+1, env, s =>
    if s.continueFlag = false then some s
    else fileWaitLoop fuel env (lcdScroll 3 env s)

/-- `getFileName("/", newFileName)`: returns the produced name and the
new state, or `none` when the exhaustion prompt never gets its
confirmation press within `fuel` loop iterations. -/
def getFileName (fuel : Nat) (env : Env) (s : Sys) : Option (List Char × Sys) :=
  let s : Sys := { s with maxFileNum := scannedNum env s }
  let next := s.maxFileNum + 1
  let s : Sys := { s with maxFileNum := next }
  if 999 < next then
    match fileWaitLoop fuel env { delayMs 500 s with continueFlag := true } with
    | none => none
    | some s2 =>
      some (fmtFileNum 1, { s2 with maxFileNum := 1, continueFlag := true })
  else some (fmtFileNum next, s)

/-- `while (continueFlag) { printLcdScroll("Card Failed or\n...") }`
— the mount-failure prompt is a 4-line message, 2 segments. -/
def cardWaitLoop : Nat → Env → Sys → Option Sys
  | 0, _, _ => none
  | fuel+1, env, s =>
    if s.continueFlag = false then some s
    else cardWaitLoop fuel env (lcdScroll 2 env s)

/-- `setupCard()`: on a successful `SD.begin` the flag is driven false
to skip the failure prompt; the function always leaves the flag true. -/
def setupCard (fuel : Nat) (env : Env) (s : Sys) : Option Sys :=
  let s : Sys :=
    if env.sdOk then { s with continueFlag := false, cardExists := true } else s
  match cardWaitLoop fuel env s with
  | none => none
  | some s2 => some { s2 with continueFlag := true }

/-! ## writeData / startTest / endTest / stepTest (source lines 356-369, 490-605) -/

/-- `writeData(time, pos, force)`: append one CSV data row. -/
def writeData (t : Nat) (pos force : Int) (s : Sys) : Sys :=
  { s with fileRows := s.fileRows ++ [(t, pos, force)] }

/-- The tail of `startTest()` after the storage branch: the 3 s pause,
the optional auto-detect probe, and the session-time reset (source
lines 503-516). -/
def startTestTail (env : Env) (sw : Sys) : Sys :=
  let s2 := delayMs 3000 sw
  let s3 : Sys :=
    if s2.servoChecked = false ∧ s2.servoActive = true then
      let p := checkServo env s2
      delayMs 2000 { p.2 with servoChecked := p.1 }
    else s2
  { s3 with scaleStartTime := s3.clock % u32Mod, readTime := 0 }

/-- `startTest()`.  `none` when getFileName's exhaustion prompt never
gets its press within `fuel`. -/
def startTest (fuel : Nat) (env : Env) (s : Sys) : Option Sys :=
  let s : Sys := { s with servoStep := 2 }
  let so : Option Sys :=
    if s.cardExists = true then
      match getFileName fuel env s with
      | none => none
      | some (nm, s1) =>
        let s1 : Sys := { s1 with activeFileName := nm }
        if env.openOk then some { s1 with fileOpen := true } else some s1
    else some s
  match so with
  | none => none
  | some s2 => some (startTestTail env s2)

/-- `endTest()`: close the file if a card exists, pause, reset
maxForce.  Note: servoPos is not touched. -/
def endTest (s : Sys) : Sys :=
  let s : Sys := if s.cardExists = true then { s with fileOpen := false } else s
  let s := delayMs 2000 s
  { s with maxForce := 0 }

/-- `180 + TIME_AT_MAX_THROTTLE / SAMPLE_MS`. -/
def maxServoPos : Int := 180 + (3000 / 250)

/-- `stepTest()` with CONT_SYNC not defined (the shipped default): one
sampling tick.  The display-formatting block (dtostrf/snprintf of the
force strings) has no effect on any modelled state and is omitted. -/
def stepTest (env : Env) (s : Sys) : Sys :=
  let elapsed := usub32 (usub32 s.clock s.scaleStartTime) s.readTime
  let waitRemaining := 250 - min 200 elapsed
  let s := if 0 < waitRemaining then delayCheckButton waitRemaining true env s else s
  let s : Sys := { s with readTime := usub32 s.clock s.scaleStartTime }
  let s : Sys := { s with unitForce := env.force s.forceIdx,
                          forceIdx := s.forceIdx + 1 }
  let s : Sys := { s with maxForce := max s.unitForce s.maxForce }
  let actualServoPos : Int := min 180 s.servoPos
  let s := if s.cardExists = true then writeData s.readTime actualServoPos s.unitForce s else s
  if s.servoChecked = true ∧ s.servoActive = true then
    let s : Sys := { s with servoPos := s.servoPos + s.servoStep }
    if maxServoPos ≤ s.servoPos then { s with servoStep := -2 }
    else if s.servoPos ≤ 0 then { s with servoStep := 0, continueFlag := false }
    else s
  else s

/-! ## loop() (source lines 625-648) -/

/-- `while (continueFlag && !scaleActive) printLcdScroll("Ready to
Test!\n \nPress Button\nto Begin")` — a 4-line message, 2 segments. -/
def idleWaitLoop : Nat → Env → Sys → Option Sys
  | 0, _, _ => none
  | fuel+1, env, s =>
    if s.continueFlag = true ∧ s.scaleActive = false then
      idleWaitLoop fuel env (lcdScroll 2 env s)
    else some s

/-- The `if (!continueFlag) { ... }` consume block of loop(): toggle
scaleActive, reset the flag, run startTest or endTest (plus the 5 s
pause), reset the flag again. -/
def loopConsume (fuel : Nat) (env : Env) (s : Sys) : Option Sys :=
  if s.continueFlag = false then
    let s : Sys := { s with scaleActive := !s.scaleActive, continueFlag := true }
    let so := if s.scaleActive = true then startTest fuel env s
              else some (delayMs 5000 (endTest s))
    match so with
    | none => none
    | some s2 => some { s2 with continueFlag := true }
  else some s

/-- One iteration of `loop()`. -/
def loopIter (fuel : Nat) (env : Env) (s : Sys) : Option Sys :=
  match idleWaitLoop fuel env s with
  | none => none
  | some s1 =>
    match loopConsume fuel env s1 with
    | none => none
    | some s2 =>
      if s2.scaleActive = true ∧ s2.continueFlag = true then some (stepTest env s2)
      else some (delayCheckButton 250 false env s2)

/-! ## Concrete inputs used by counterexamples and witnesses -/

/-- Environment whose button always reads HIGH (never pressed). -/
def envHigh : Env := ⟨fun _ => true, fun _ => 0, none, false, false⟩

/-- Environment whose button reads LOW on the very first poll and HIGH
afterwards (one press, immediately released). -/
def envPressOnce : Env :=
  ⟨fun k => if k = 0 then false else true, fun _ => 0, none, false, false⟩

/-- Environment whose button reads LOW on even polls and HIGH on odd
polls (press observed, then released, at each pair of reads). -/
def envAltPress : Env :=
  ⟨fun k => decide (k % 2 = 1), fun _ => 0, none, false, false⟩

/-- Environment with an all-HIGH button and a directory holding exactly
`t_998.csv`. -/
def envDir998 : Env :=
  ⟨fun _ => true, fun _ => 0,
   some [['t', '_', '9', '9', '8', '.', 'c', 's', 'v']], false, false⟩

/-- Same directory as `envDir998` but with the alternating button, so
the exhaustion prompt receives its confirmation press. -/
def envDir998Press : Env :=
  ⟨fun k => decide (k % 2 = 1), fun _ => 0,
   some [['t', '_', '9', '9', '8', '.', 'c', 's', 'v']], false, false⟩

/-- Environment with an all-HIGH button and a directory holding exactly
`t_5.csv`. -/
def envDir5 : Env :=
  ⟨fun _ => true, fun _ => 0,
   some [['t', '_', '5', '.', 'c', 's', 'v']], false, false⟩

/-- Auto test under way, ramp-down one tick from the bottom. -/
def sStepDone : Sys :=
  { sysInit with
    servoChecked := true
    servoPos := 2
    servoStep := -2 }

/-- Running auto test mid-ramp (position 10, ascending). -/
def sRunMid : Sys :=
  { sysInit with
    scaleActive := true
    servoChecked := true
    servoPos := 10
    servoStep := 2 }

/-- Cancellation pending while a test is active (the state loop() sees
right after a mid-test press). -/
def sStopPending : Sys :=
  { sysInit with
    scaleActive := true
    continueFlag := false
    servoChecked := true
    servoPos := 12 }

/-- Fresh state whose file counter is already at 999. -/
def sMax999 : Sys := { sysInit with maxFileNum := 999 }

/-- Auto test running at position 190 (above 180, inside the hold
margin), ascending. -/
def sHold190 : Sys :=
  { sysInit with
    scaleActive := true
    servoChecked := true
    cardExists := true
    servoPos := 190
    servoStep := 2 }

/-! ## Digit-character and decimal-rendering lemmas -/

theorem digitChar_toNat {d : Nat} (h : d < 10) : (digitChar d).toNat = 48 + d := by
  interval_cases d <;> rfl

theorem isDigitChar_digitChar {d : Nat} (h : d < 10) :
    isDigitChar (digitChar d) = true := by
  interval_cases d <;> rfl

theorem digitChar_ne_minus {d : Nat} (h : d < 10) : ¬ digitChar d = '-' := by
  interval_cases d <;> decide

theorem digitChar_ne_plus {d : Nat} (h : d < 10) : ¬ digitChar d = '+' := by
  interval_cases d <;> decide

theorem digitVal_int {d : Nat} (h : d < 10) :
    ((digitChar d).toNat : Int) - 48 = (d : Int) := by
  rw [digitChar_toNat h]; push_cast; ring

theorem dot_beq_of_digit {c : Char} (h : isDigitChar c = true) :
    ('.' == c) = false := by
  rw [beq_eq_false_iff_ne]
  intro e
  rw [← e] at h
  exact absurd h (by decide)

theorem isSpaceChar_of_digit {c : Char} (h : isDigitChar c = true) :
    isSpaceChar c = false := by
  have h2 : 48 ≤ c.toNat ∧ c.toNat ≤ 57 := by simpa [isDigitChar] using h
  simp only [isSpaceChar, Bool.or_eq_false_iff, Bool.and_eq_false_iff,
    decide_eq_false_iff_not]
  omega

theorem minus_ne_of_digit {c : Char} (h : isDigitChar c = true) : ¬ c = '-' := by
  intro e; rw [e] at h; exact absurd h (by decide)

theorem plus_ne_of_digit {c : Char} (h : isDigitChar c = true) : ¬ c = '+' := by
  intro e; rw [e] at h; exact absurd h (by decide)

theorem decCharsAux_one {fuel d : Nat} (hd : d < 10) (hf : 0 < fuel) :
    decCharsAux fuel d = [digitChar d] := by
  cases fuel with
  | zero => omega
  | succ f =>
    rw [show decCharsAux (f + 1) d
          = if d < 10 then [digitChar d]
            else decCharsAux f (d / 10) ++ [digitChar (d % 10)] from rfl,
        if_pos hd]

theorem decCharsAux_two {fuel n : Nat} (h1 : 10 ≤ n) (h2 : n < 100)
    (hf : 10 ≤ fuel) :
    decCharsAux fuel n = [digitChar (n / 10), digitChar (n % 10)] := by
  cases fuel with
  | zero => omega
  | succ f =>
    rw [show decCharsAux (f + 1) n
          = if n < 10 then [digitChar n]
            else decCharsAux f (n / 10) ++ [digitChar (n % 10)] from rfl,
        if_neg (by omega), decCharsAux_one (by omega) (by omega)]
    rfl

theorem decCharsAux_three {fuel n : Nat} (h1 : 100 ≤ n) (h2 : n < 1000)
    (hf : 100 ≤ fuel) :
    decCharsAux fuel n
      = [digitChar (n / 100), digitChar (n / 10 % 10), digitChar (n % 10)] := by
  cases fuel with
  | zero => omega
  | succ f =>
    rw [show decCharsAux (f + 1) n
          = if n < 10 then [digitChar n]
            else decCharsAux f (n / 10) ++ [digitChar (n % 10)] from rfl,
        if_neg (by omega), decCharsAux_two (by omega) (by omega) (by omega),
        Nat.div_div_eq_div_mul]
    rfl

theorem decChars_one {n : Nat} (h : n < 10) : decChars n = [digitChar n] :=
  decCharsAux_one h (Nat.succ_pos n)

theorem decChars_two {n : Nat} (h1 : 10 ≤ n) (h2 : n < 100) :
    decChars n = [digitChar (n / 10), digitChar (n % 10)] :=
  decCharsAux_two h1 h2 (by omega)

theorem decChars_three {n : Nat} (h1 : 100 ≤ n) (h2 : n < 1000) :
    decChars n
      = [digitChar (n / 100), digitChar (n / 10 % 10), digitChar (n % 10)] :=
  decCharsAux_three h1 h2 (by omega)

theorem fmtFileNum_natCast (n : Nat) (hlen : (decChars n).length ≤ 3) :
    fmtFileNum (n : Int) = 't' :: '_' :: (decChars n ++ ['.', 'c', 's', 'v']) := by
  have h0 : ¬ ((n : Int) < 0) := by omega
  rw [fmtFileNum, intDecChars]
  rw [if_neg h0, Int.toNat_natCast]
  rw [show ('t' :: '_' :: decChars n) ++ ['.', 'c', 's', 'v']
        = 't' :: '_' :: (decChars n ++ ['.', 'c', 's', 'v']) from rfl]
  apply List.take_of_length_le
  simp
  omega

/-! ## findSub and atoi on digit spans -/

theorem findSub_cons_ne (a : Char) (rest : List Char)
    (h : (['.', 'c', 's', 'v'] : List Char).isPrefixOf (a :: rest) = false) :
    findSub (a :: rest) ['.', 'c', 's', 'v']
      = (findSub rest ['.', 'c', 's', 'v']).map (· + 1) := by
  rw [show findSub (a :: rest) ['.', 'c', 's', 'v']
        = if (['.', 'c', 's', 'v'] : List Char).isPrefixOf (a :: rest)
          then some 0
          else (findSub rest ['.', 'c', 's', 'v']).map (· + 1) from rfl,
      h]
  simp

theorem findSub_digit_list (ds : List Char) (hdig : ds.all isDigitChar = true) :
    findSub (ds ++ ['.', 'c', 's', 'v']) ['.', 'c', 's', 'v']
      = some ds.length := by
  induction ds with
  | nil => rfl
  | cons c t ih =>
    have hc : isDigitChar c = true := by
      simp only [List.all_cons, Bool.and_eq_true] at hdig; exact hdig.1
    have ht : t.all isDigitChar = true := by
      simp only [List.all_cons, Bool.and_eq_true] at hdig; exact hdig.2
    rw [show ((c :: t) ++ ['.', 'c', 's', 'v'])
          = c :: (t ++ ['.', 'c', 's', 'v']) from rfl,
        findSub_cons_ne _ _ (by simp [List.isPrefixOf, dot_beq_of_digit hc]),
        ih ht]
    simp

theorem atoiLoop_cons (d : Char) (t : List Char) (acc : Int)
    (h : isDigitChar d = true) :
    atoiLoop (d :: t) acc = atoiLoop t (acc * 10 + ((d.toNat : Int) - 48)) := by
  rw [show atoiLoop (d :: t) acc
        = if isDigitChar d = true
          then atoiLoop t (acc * 10 + ((d.toNat : Int) - 48)) else acc from rfl,
      if_pos h]

theorem atoiChars_digit_list (c : Char) (t : List Char)
    (hdig : (c :: t).all isDigitChar = true) :
    atoiChars (c :: t) = atoiLoop (c :: t) 0 := by
  have hc : isDigitChar c = true := by
    simp only [List.all_cons, Bool.and_eq_true] at hdig; exact hdig.1
  have hds : (c :: t).dropWhile isSpaceChar = c :: t := by
    rw [List.dropWhile_cons, if_neg (by simp [isSpaceChar_of_digit hc])]
  rw [atoiChars, hds]
  simp only []
  rw [if_neg (minus_ne_of_digit hc), if_neg (plus_ne_of_digit hc)]

theorem isMatchingFormat_digits (c : Char) (t : List Char)
    (hlen : (c :: t).length ≤ 4) (hdig : (c :: t).all isDigitChar = true) :
    isMatchingFormat ('t' :: '_' :: ((c :: t) ++ ['.', 'c', 's', 'v'])) = true := by
  have hL : ('t' :: '_' :: ((c :: t) ++ ['.', 'c', 's', 'v'])).length
      = t.length + 7 := by simp
  have hdrop4 : ('t' :: '_' :: ((c :: t) ++ ['.', 'c', 's', 'v'])).drop
      (t.length + 7 - 4) = ['.', 'c', 's', 'v'] := by
    rw [show t.length + 7 - 4 = ((c :: t).length + 1) + 1 by simp,
        List.drop_succ_cons, List.drop_succ_cons]
    exact List.drop_left _ _
  have htake : (('t' :: '_' :: ((c :: t) ++ ['.', 'c', 's', 'v'])).drop 2).take
      (t.length + 7 - 6) = c :: t := by
    rw [show ('t' :: '_' :: ((c :: t) ++ ['.', 'c', 's', 'v'])).drop 2
          = (c :: t) ++ ['.', 'c', 's', 'v'] from rfl,
        show t.length + 7 - 6 = (c :: t).length by simp]
    exact List.take_left _ _
  simp only [isMatchingFormat]
  rw [hL]
  rw [if_neg (by simp only [List.length_cons] at hlen; omega)]
  rw [if_neg (by simp)]
  rw [if_neg (by rw [hdrop4]; simp)]
  rw [htake, hdig]

theorem getFileNum_digits (c : Char) (t : List Char)
    (hdig : (c :: t).all isDigitChar = true) :
    getFileNum ('t' :: '_' :: ((c :: t) ++ ['.', 'c', 's', 'v']))
      = atoiLoop (c :: t) 0 := by
  have hfind : findSub ('t' :: '_' :: ((c :: t) ++ ['.', 'c', 's', 'v']))
      ['.', 'c', 's', 'v'] = some ((c :: t).length + 2) := by
    rw [findSub_cons_ne _ _ (by rfl), findSub_cons_ne _ _ (by rfl),
        findSub_digit_list _ hdig]
    simp
  rw [show getFileNum ('t' :: '_' :: ((c :: t) ++ ['.', 'c', 's', 'v']))
        = (match findSub ('t' :: '_' :: ((c :: t) ++ ['.', 'c', 's', 'v']))
                  ['.', 'c', 's', 'v'] with
           | none => (0 : Int)
           | some e => if 2 < e
               then atoiChars ((('t' :: '_' :: ((c :: t)
                      ++ ['.', 'c', 's', 'v'])).drop 2).take (e - 2))
               else 0) from rfl,
      hfind]
  simp only []
  rw [if_pos (by simp only [List.length_cons]; omega)]
  rw [show ('t' :: '_' :: ((c :: t) ++ ['.', 'c', 's', 'v'])).drop 2
        = (c :: t) ++ ['.', 'c', 's', 'v'] from rfl,
      show (c :: t).length + 2 - 2 = (c :: t).length by omega,
      List.take_left, atoiChars_digit_list _ _ hdig]

/-- C10: round-trip of file-name formatting and parsing.  For every n
with 1 ≤ n ≤ 999, the name snprintf("t_%d.csv", n) produces is accepted
by isMatchingFormat, and getFileNum applied to it returns n. -/
theorem C10_theorem (n : Nat) (h1 : 1 ≤ n) (h2 : n ≤ 999) :
    isMatchingFormat (fmtFileNum (n : Int)) = true ∧
    getFileNum (fmtFileNum (n : Int)) = (n : Int) := by
  rcases Nat.lt_or_ge n 10 with hc | hc
  · have hd : decChars n = [digitChar n] := decChars_one hc
    have hfmt := fmtFileNum_natCast n (by rw [hd]; simp)
    rw [hfmt, hd]
    have hdig : ([digitChar n] : List Char).all isDigitChar = true := by
      simp [isDigitChar_digitChar hc]
    refine ⟨isMatchingFormat_digits _ _ (by simp) hdig, ?_⟩
    rw [getFileNum_digits _ _ hdig, atoiLoop_cons _ _ _ (isDigitChar_digitChar hc),
        show atoiLoop [] (0 * 10 + (((digitChar n).toNat : Int) - 48))
          = 0 * 10 + (((digitChar n).toNat : Int) - 48) from rfl,
        digitChar_toNat hc]
    push_cast
    omega
  rcases Nat.lt_or_ge n 100 with hc2 | hc2
  · have hd : decChars n = [digitChar (n / 10), digitChar (n % 10)] :=
      decChars_two hc hc2
    have hfmt := fmtFileNum_natCast n (by rw [hd]; simp)
    rw [hfmt, hd]
    have ha : n / 10 < 10 := by omega
    have hb : n % 10 < 10 := by omega
    have hdig : ([digitChar (n / 10), digitChar (n % 10)] : List Char).all
        isDigitChar = true := by
      simp [isDigitChar_digitChar ha, isDigitChar_digitChar hb]
    refine ⟨isMatchingFormat_digits _ _ (by simp) hdig, ?_⟩
    rw [getFileNum_digits _ _ hdig,
        atoiLoop_cons _ _ _ (isDigitChar_digitChar ha),
        atoiLoop_cons _ _ _ (isDigitChar_digitChar hb),
        show ∀ acc : Int, atoiLoop [] acc = acc from fun _ => rfl,
        digitChar_toNat ha, digitChar_toNat hb]
    push_cast
    omega
  · have hd : decChars n
        = [digitChar (n / 100), digitChar (n / 10 % 10), digitChar (n % 10)] :=
      decChars_three hc2 (by omega)
    have hfmt := fmtFileNum_natCast n (by rw [hd]; simp)
    rw [hfmt, hd]
    have ha : n / 100 < 10 := by omega
    have hb : n / 10 % 10 < 10 := by omega
    have hcc : n % 10 < 10 := by omega
    have hdig : ([digitChar (n / 100), digitChar (n / 10 % 10),
        digitChar (n % 10)] : List Char).all isDigitChar = true := by
      simp [isDigitChar_digitChar ha, isDigitChar_digitChar hb,
        isDigitChar_digitChar hcc]
    refine ⟨isMatchingFormat_digits _ _ (by simp) hdig, ?_⟩
    rw [getFileNum_digits _ _ hdig,
        atoiLoop_cons _ _ _ (isDigitChar_digitChar ha),
        atoiLoop_cons _ _ _ (isDigitChar_digitChar hb),
        atoiLoop_cons _ _ _ (isDigitChar_digitChar hcc),
        show ∀ acc : Int, atoiLoop [] acc = acc from fun _ => rfl,
        digitChar_toNat ha, digitChar_toNat hb, digitChar_toNat hcc]
    push_cast
    omega

/-- C10 witness: the round trip at n = 7 and, via the theorem, at a
concrete three-digit value. -/
theorem C10_witness :
    isMatchingFormat (fmtFileNum (742 : Int)) = true ∧
    getFileNum (fmtFileNum (742 : Int)) = (742 : Int) :=
  C10_theorem 742 (by decide) (by decide)

/-- C6 counterexample: the matcher accepts `t_1234.csv` — a name whose
numeric span has four digits — although the claim says it accepts
exactly the names with 1 to 3 digits (here compared against the
spec-worded matcher with digit bounds 1..3). -/
theorem C6_counterexample :
    isMatchingFormat ['t', '_', '1', '2', '3', '4', '.', 'c', 's', 'v'] = true
    ∧ specFormat 1 3 ['t', '_', '1', '2', '3', '4', '.', 'c', 's', 'v']
        = false := by
  decide

/-- C6 amended: the matcher accepts exactly the strings of the form
`t_` + 1 to 4 decimal digits + `.csv` (total length 7 to 10):
isMatchingFormat agrees everywhere with the spec-worded matcher whose
digit-count bounds are 1 and 4. -/
theorem C6_theorem (name : List Char) :
    isMatchingFormat name = specFormat 1 4 name := by
  match name with
  | [] => rfl
  | [a] => rfl
  | a :: b :: rest =>
    have htake2 : (a :: b :: rest).take 2 = [a, b] := rfl
    have hdrop2 : (a :: b :: rest).drop 2 = rest := rfl
    simp only [isMatchingFormat, specFormat, List.length_cons, htake2, hdrop2]
    by_cases hab : a = 't' ∧ b = '_'
    · obtain ⟨ha, hb⟩ := hab
      subst ha; subst hb
      rw [if_pos (⟨rfl, rfl⟩ : 't' = 't' ∧ '_' = '_')]
      by_cases hlen5 : rest.length < 5
      · rw [if_pos (by omega), if_neg ?hc6a]
        case hc6a =>
          rintro ⟨_, hge, _⟩
          rw [List.length_take] at hge
          omega
      by_cases hlen8 : 8 < rest.length
      · rw [if_pos (by omega), if_neg ?hc6b]
        case hc6b =>
          rintro ⟨_, _, hle⟩
          rw [List.length_take] at hle
          omega
      · rw [if_neg (by omega)]
        rw [if_neg (show ¬ (['t', '_'] : List Char) ≠ ['t', '_'] from by simp)]
        rw [show rest.length + 1 + 1 - 4 = rest.length - 4 + 1 + 1 by omega,
            List.drop_succ_cons, List.drop_succ_cons,
            show rest.length + 1 + 1 - 6 = rest.length - 4 by omega]
        by_cases hcsv : rest.drop (rest.length - 4) = ['.', 'c', 's', 'v']
        · rw [if_neg (show ¬ rest.drop (rest.length - 4) ≠ ['.', 'c', 's', 'v']
                from by simp [hcsv]),
              if_pos ⟨hcsv, by rw [List.length_take]; omega,
                      by rw [List.length_take]; omega⟩]
        · rw [if_pos hcsv, if_neg (fun h => hcsv h.1)]
    · rw [if_neg hab]
      by_cases h1 : rest.length + 1 + 1 < 7 ∨ 10 < rest.length + 1 + 1
      · rw [if_pos h1]
      · rw [if_neg h1,
            if_pos (show ([a, b] : List Char) ≠ ['t', '_'] from fun h => by
              injection h with h1 h2
              injection h2 with h2 _
              exact hab ⟨h1, h2⟩)]

/-! ## Unfolding and preservation lemmas for the polling loops -/

theorem dcbLoop1_zero (dt total : Nat) (env : Env) (s : Sys) :
    dcbLoop1 0 dt total env s = (s, total) := rfl

theorem dcbLoop1_succ (f dt total : Nat) (env : Env) (s : Sys) :
    dcbLoop1 (f + 1) dt total env s
      = if total < dt ∧ s.continueFlag = true then
          (if env.button s.btnIdx = false
           then ({ { s with btnIdx := s.btnIdx + 1,
                            buttonState := env.button s.btnIdx }
                   with continueFlag := false }, total)
           else dcbLoop1 f dt (total + 50) env
                  (delayMs (min 50 (dt - total))
                    { s with btnIdx := s.btnIdx + 1,
                             buttonState := env.button s.btnIdx }))
        else (s, total) := rfl

theorem dcbLoop2_zero (dt : Nat) (full : Bool) (total : Nat) (env : Env)
    (s : Sys) : dcbLoop2 0 dt full total env s = s := rfl

theorem dcbLoop2_succ (f dt : Nat) (full : Bool) (total : Nat) (env : Env)
    (s : Sys) :
    dcbLoop2 (f + 1) dt full total env s
      = if total < dt ∧ (full = true ∨ s.buttonState = false) then
          (if env.button s.btnIdx = true
           then { s with btnIdx := s.btnIdx + 1,
                         buttonState := env.button s.btnIdx }
           else dcbLoop2 f dt full (total + 50) env
                  (delayMs (min 50 (dt - total))
                    { s with btnIdx := s.btnIdx + 1,
                             buttonState := env.button s.btnIdx }))
        else s := rfl

theorem dcbLoop1_pres (fuel dt total : Nat) (env : Env) (s : Sys) :
    ((dcbLoop1 fuel dt total env s).1).servoPos = s.servoPos ∧
    ((dcbLoop1 fuel dt total env s).1).servoStep = s.servoStep ∧
    ((dcbLoop1 fuel dt total env s).1).servoChecked = s.servoChecked ∧
    ((dcbLoop1 fuel dt total env s).1).servoActive = s.servoActive ∧
    ((dcbLoop1 fuel dt total env s).1).scaleActive = s.scaleActive ∧
    ((dcbLoop1 fuel dt total env s).1).cardExists = s.cardExists ∧
    ((dcbLoop1 fuel dt total env s).1).maxFileNum = s.maxFileNum ∧
    ((dcbLoop1 fuel dt total env s).1).activeFileName = s.activeFileName ∧
    ((dcbLoop1 fuel dt total env s).1).fileOpen = s.fileOpen ∧
    ((dcbLoop1 fuel dt total env s).1).fileRows = s.fileRows ∧
    ((dcbLoop1 fuel dt total env s).1).maxForce = s.maxForce ∧
    ((dcbLoop1 fuel dt total env s).1).unitForce = s.unitForce ∧
    ((dcbLoop1 fuel dt total env s).1).scaleStartTime = s.scaleStartTime ∧
    ((dcbLoop1 fuel dt total env s).1).readTime = s.readTime ∧
    ((dcbLoop1 fuel dt total env s).1).forceIdx = s.forceIdx ∧
    ((dcbLoop1 fuel dt total env s).1).probeRuns = s.probeRuns := by
  induction fuel generalizing total s with
  | zero => exact ⟨rfl, rfl, rfl, rfl, rfl, rfl, rfl, rfl, rfl, rfl, rfl, rfl, rfl, rfl, rfl, rfl⟩
  | succ f ih =>
    rw [dcbLoop1_succ]
    split
    · split
      · exact ⟨rfl, rfl, rfl, rfl, rfl, rfl, rfl, rfl, rfl, rfl, rfl, rfl, rfl, rfl, rfl, rfl⟩
      · exact ih _ _
    · exact ⟨rfl, rfl, rfl, rfl, rfl, rfl, rfl, rfl, rfl, rfl, rfl, rfl, rfl, rfl, rfl, rfl⟩

theorem dcbLoop2_pres (fuel dt : Nat) (full : Bool) (total : Nat) (env : Env)
    (s : Sys) :
    ((dcbLoop2 fuel dt full total env s)).servoPos = s.servoPos ∧
    ((dcbLoop2 fuel dt full total env s)).servoStep = s.servoStep ∧
    ((dcbLoop2 fuel dt full total env s)).servoChecked = s.servoChecked ∧
    ((dcbLoop2 fuel dt full total env s)).servoActive = s.servoActive ∧
    ((dcbLoop2 fuel dt full total env s)).scaleActive = s.scaleActive ∧
    ((dcbLoop2 fuel dt full total env s)).cardExists = s.cardExists ∧
    ((dcbLoop2 fuel dt full total env s)).maxFileNum = s.maxFileNum ∧
    ((dcbLoop2 fuel dt full total env s)).activeFileName = s.activeFileName ∧
    ((dcbLoop2 fuel dt full total env s)).fileOpen = s.fileOpen ∧
    ((dcbLoop2 fuel dt full total env s)).fileRows = s.fileRows ∧
    ((dcbLoop2 fuel dt full total env s)).maxForce = s.maxForce ∧
    ((dcbLoop2 fuel dt full total env s)).unitForce = s.unitForce ∧
    ((dcbLoop2 fuel dt full total env s)).scaleStartTime = s.scaleStartTime ∧
    ((dcbLoop2 fuel dt full total env s)).readTime = s.readTime ∧
    ((dcbLoop2 fuel dt full total env s)).forceIdx = s.forceIdx ∧
    ((dcbLoop2 fuel dt full total env s)).probeRuns = s.probeRuns := by
  induction fuel generalizing total s with
  | zero => exact ⟨rfl, rfl, rfl, rfl, rfl, rfl, rfl, rfl, rfl, rfl, rfl, rfl, rfl, rfl, rfl, rfl⟩
  | succ f ih =>
    rw [dcbLoop2_succ]
    split
    · split
      · exact ⟨rfl, rfl, rfl, rfl, rfl, rfl, rfl, rfl, rfl, rfl, rfl, rfl, rfl, rfl, rfl, rfl⟩
      · exact ih _ _
    · exact ⟨rfl, rfl, rfl, rfl, rfl, rfl, rfl, rfl, rfl, rfl, rfl, rfl, rfl, rfl, rfl, rfl⟩

theorem delayCheckButton_pres (dt : Nat) (full : Bool) (env : Env) (s : Sys) :
    ((delayCheckButton dt full env s)).servoPos = s.servoPos ∧
    ((delayCheckButton dt full env s)).servoStep = s.servoStep ∧
    ((delayCheckButton dt full env s)).servoChecked = s.servoChecked ∧
    ((delayCheckButton dt full env s)).servoActive = s.servoActive ∧
    ((delayCheckButton dt full env s)).scaleActive = s.scaleActive ∧
    ((delayCheckButton dt full env s)).cardExists = s.cardExists ∧
    ((delayCheckButton dt full env s)).maxFileNum = s.maxFileNum ∧
    ((delayCheckButton dt full env s)).activeFileName = s.activeFileName ∧
    ((delayCheckButton dt full env s)).fileOpen = s.fileOpen ∧
    ((delayCheckButton dt full env s)).fileRows = s.fileRows ∧
    ((delayCheckButton dt full env s)).maxForce = s.maxForce ∧
    ((delayCheckButton dt full env s)).unitForce = s.unitForce ∧
    ((delayCheckButton dt full env s)).scaleStartTime = s.scaleStartTime ∧
    ((delayCheckButton dt full env s)).readTime = s.readTime ∧
    ((delayCheckButton dt full env s)).forceIdx = s.forceIdx ∧
    ((delayCheckButton dt full env s)).probeRuns = s.probeRuns := by
  unfold delayCheckButton
  obtain ⟨a1, a2, a3, a4, a5, a6, a7, a8, a9, a10, a11, a12, a13, a14, a15, a16⟩ :=
    dcbLoop1_pres (dt + 1) dt 0 env { s with buttonState := true }
  obtain ⟨b1, b2, b3, b4, b5, b6, b7, b8, b9, b10, b11, b12, b13, b14, b15, b16⟩ :=
    dcbLoop2_pres (dt + 1) dt full
      (dcbLoop1 (dt + 1) dt 0 env { s with buttonState := true }).2 env
      (dcbLoop1 (dt + 1) dt 0 env { s with buttonState := true }).1
  exact ⟨b1.trans a1, b2.trans a2, b3.trans a3, b4.trans a4, b5.trans a5, b6.trans a6, b7.trans a7, b8.trans a8, b9.trans a9, b10.trans a10, b11.trans a11, b12.trans a12, b13.trans a13, b14.trans a14, b15.trans a15, b16.trans a16⟩

theorem dcbLoop1_btnIdx (fuel dt total : Nat) (env : Env) (s : Sys) :
    s.btnIdx ≤ (dcbLoop1 fuel dt total env s).1.btnIdx := by
  induction fuel generalizing total s with
  | zero => exact Nat.le_refl _
  | succ f ih =>
    rw [dcbLoop1_succ]
    split
    · split
      · exact Nat.le_succ _
      · have h1 := ih (total + 50)
          (delayMs (min 50 (dt - total))
            { s with btnIdx := s.btnIdx + 1, buttonState := env.button s.btnIdx })
        have h2 : s.btnIdx + 1 ≤ _ := h1
        omega
    · exact Nat.le_refl _

theorem dcbLoop2_btnIdx (fuel dt : Nat) (full : Bool) (total : Nat) (env : Env)
    (s : Sys) : s.btnIdx ≤ (dcbLoop2 fuel dt full total env s).btnIdx := by
  induction fuel generalizing total s with
  | zero => exact Nat.le_refl _
  | succ f ih =>
    rw [dcbLoop2_succ]
    split
    · split
      · exact Nat.le_succ _
      · have h1 := ih (total + 50)
          (delayMs (min 50 (dt - total))
            { s with btnIdx := s.btnIdx + 1, buttonState := env.button s.btnIdx })
        have h2 : s.btnIdx + 1 ≤ _ := h1
        omega
    · exact Nat.le_refl _

theorem dcbLoop2_flag (fuel dt : Nat) (full : Bool) (total : Nat) (env : Env)
    (s : Sys) :
    (dcbLoop2 fuel dt full total env s).continueFlag = s.continueFlag := by
  induction fuel generalizing total s with
  | zero => rfl
  | succ f ih =>
    rw [dcbLoop2_succ]
    split
    · split
      · rfl
      · exact ih _ _
    · rfl

theorem dcbLoop1_flag_press (fuel dt total : Nat) (env : Env) (s : Sys)
    (hs : s.continueFlag = true)
    (h : (dcbLoop1 fuel dt total env s).1.continueFlag = false) :
    ∃ k, s.btnIdx ≤ k ∧ k < (dcbLoop1 fuel dt total env s).1.btnIdx ∧
      env.button k = false := by
  induction fuel generalizing total s with
  | zero => rw [dcbLoop1_zero] at h; rw [hs] at h; exact absurd h (by simp)
  | succ f ih =>
    rw [dcbLoop1_succ] at h ⊢
    by_cases hg : total < dt ∧ s.continueFlag = true
    · rw [if_pos hg] at h ⊢
      by_cases hb : env.button s.btnIdx = false
      · rw [if_pos hb] at h ⊢
        exact ⟨s.btnIdx, Nat.le_refl _, Nat.lt_succ_self _, hb⟩
      · rw [if_neg hb] at h ⊢
        obtain ⟨k, hk1, hk2, hk3⟩ := ih (total + 50)
          (delayMs (min 50 (dt - total))
            { s with btnIdx := s.btnIdx + 1, buttonState := env.button s.btnIdx })
          hs h
        have hk1' : s.btnIdx + 1 ≤ k := hk1
        exact ⟨k, by omega, hk2, hk3⟩
    · rw [if_neg hg] at h; rw [hs] at h; exact absurd h (by simp)

theorem delayCheckButton_flag_press (dt : Nat) (full : Bool) (env : Env)
    (s : Sys) (hs : s.continueFlag = true)
    (h : (delayCheckButton dt full env s).continueFlag = false) :
    ∃ k, s.btnIdx ≤ k ∧ k < (delayCheckButton dt full env s).btnIdx ∧
      env.button k = false := by
  unfold delayCheckButton at h ⊢
  rw [dcbLoop2_flag] at h
  obtain ⟨k, hk1, hk2, hk3⟩ := dcbLoop1_flag_press (dt + 1) dt 0 env
    { s with buttonState := true } hs h
  exact ⟨k, hk1, Nat.lt_of_lt_of_le hk2 (dcbLoop2_btnIdx _ _ _ _ _ _), hk3⟩

theorem dcbLoop1_flag_high (fuel dt total : Nat) (env : Env) (s : Sys)
    (hb : ∀ k, env.button k = true) :
    (dcbLoop1 fuel dt total env s).1.continueFlag = s.continueFlag := by
  induction fuel generalizing total s with
  | zero => rfl
  | succ f ih =>
    rw [dcbLoop1_succ]
    split
    · rw [if_neg (by rw [hb s.btnIdx]; simp)]
      exact ih _ _
    · rfl

theorem delayCheckButton_flag_high (dt : Nat) (full : Bool) (env : Env)
    (s : Sys) (hb : ∀ k, env.button k = true) :
    (delayCheckButton dt full env s).continueFlag = s.continueFlag := by
  unfold delayCheckButton
  rw [dcbLoop2_flag, dcbLoop1_flag_high _ _ _ _ _ hb]

theorem lcdScroll_flag_high (k : Nat) (env : Env) (s : Sys)
    (hb : ∀ j, env.button j = true) :
    (lcdScroll k env s).continueFlag = s.continueFlag := by
  induction k generalizing s with
  | zero => rfl
  | succ n ih =>
    rw [show lcdScroll (n + 1) env s
          = lcdScroll n env (delayCheckButton 2000 false env s) from rfl,
        ih, delayCheckButton_flag_high _ _ _ _ hb]

/-! ## Preservation through rampServo, lcdScroll, checkServo -/

theorem rampLoop_succ (f : Nat) (setPos : Int) (dtStep : Nat) (env : Env)
    (s : Sys) :
    rampLoop (f + 1) setPos dtStep env s
      = if s.servoPos ≠ setPos ∧ s.continueFlag = true then
          rampLoop f setPos dtStep env
            (delayCheckButton dtStep false env
              { s with servoPos := s.servoPos
                  + (if setPos - s.servoPos < 0 then -1 else 1) })
        else s := rfl

theorem rampLoop_pres (fuel : Nat) (setPos : Int) (dtStep : Nat) (env : Env)
    (s : Sys) :
    ((rampLoop fuel setPos dtStep env s)).servoStep = s.servoStep ∧
    ((rampLoop fuel setPos dtStep env s)).servoChecked = s.servoChecked ∧
    ((rampLoop fuel setPos dtStep env s)).servoActive = s.servoActive ∧
    ((rampLoop fuel setPos dtStep env s)).scaleActive = s.scaleActive ∧
    ((rampLoop fuel setPos dtStep env s)).cardExists = s.cardExists ∧
    ((rampLoop fuel setPos dtStep env s)).maxFileNum = s.maxFileNum ∧
    ((rampLoop fuel setPos dtStep env s)).activeFileName = s.activeFileName ∧
    ((rampLoop fuel setPos dtStep env s)).fileOpen = s.fileOpen ∧
    ((rampLoop fuel setPos dtStep env s)).fileRows = s.fileRows ∧
    ((rampLoop fuel setPos dtStep env s)).maxForce = s.maxForce ∧
    ((rampLoop fuel setPos dtStep env s)).unitForce = s.unitForce ∧
    ((rampLoop fuel setPos dtStep env s)).scaleStartTime = s.scaleStartTime ∧
    ((rampLoop fuel setPos dtStep env s)).readTime = s.readTime ∧
    ((rampLoop fuel setPos dtStep env s)).forceIdx = s.forceIdx ∧
    ((rampLoop fuel setPos dtStep env s)).probeRuns = s.probeRuns := by
  induction fuel generalizing s with
  | zero => exact ⟨rfl, rfl, rfl, rfl, rfl, rfl, rfl, rfl, rfl, rfl, rfl, rfl, rfl, rfl, rfl⟩
  | succ f ih =>
    rw [rampLoop_succ]
    split
    · obtain ⟨i1, i2, i3, i4, i5, i6, i7, i8, i9, i10, i11, i12, i13, i14, i15⟩ := ih
        (delayCheckButton dtStep false env
          { s with servoPos := s.servoPos
              + (if setPos - s.servoPos < 0 then -1 else 1) })
      obtain ⟨_, d1, d2, d3, d4, d5, d6, d7, d8, d9, d10, d11, d12, d13, d14, d15⟩ :=
        delayCheckButton_pres dtStep false env
          { s with servoPos := s.servoPos
              + (if setPos - s.servoPos < 0 then -1 else 1) }
      exact ⟨i1.trans d1, i2.trans d2, i3.trans d3, i4.trans d4, i5.trans d5, i6.trans d6, i7.trans d7, i8.trans d8, i9.trans d9, i10.trans d10, i11.trans d11, i12.trans d12, i13.trans d13, i14.trans d14, i15.trans d15⟩
    · exact ⟨rfl, rfl, rfl, rfl, rfl, rfl, rfl, rfl, rfl, rfl, rfl, rfl, rfl, rfl, rfl⟩

theorem lcdScroll_succ (k : Nat) (env : Env) (s : Sys) :
    lcdScroll (k + 1) env s
      = lcdScroll k env (delayCheckButton 2000 false env s) := rfl

theorem lcdScroll_pres (k : Nat) (env : Env) (s : Sys) :
    ((lcdScroll k env s)).servoPos = s.servoPos ∧
    ((lcdScroll k env s)).servoStep = s.servoStep ∧
    ((lcdScroll k env s)).servoChecked = s.servoChecked ∧
    ((lcdScroll k env s)).servoActive = s.servoActive ∧
    ((lcdScroll k env s)).scaleActive = s.scaleActive ∧
    ((lcdScroll k env s)).cardExists = s.cardExists ∧
    ((lcdScroll k env s)).maxFileNum = s.maxFileNum ∧
    ((lcdScroll k env s)).activeFileName = s.activeFileName ∧
    ((lcdScroll k env s)).fileOpen = s.fileOpen ∧
    ((lcdScroll k env s)).fileRows = s.fileRows ∧
    ((lcdScroll k env s)).maxForce = s.maxForce ∧
    ((lcdScroll k env s)).unitForce = s.unitForce ∧
    ((lcdScroll k env s)).scaleStartTime = s.scaleStartTime ∧
    ((lcdScroll k env s)).readTime = s.readTime ∧
    ((lcdScroll k env s)).forceIdx = s.forceIdx ∧
    ((lcdScroll k env s)).probeRuns = s.probeRuns := by
  induction k generalizing s with
  | zero => exact ⟨rfl, rfl, rfl, rfl, rfl, rfl, rfl, rfl, rfl, rfl, rfl, rfl, rfl, rfl, rfl, rfl⟩
  | succ n ih =>
    rw [lcdScroll_succ]
    obtain ⟨i1, i2, i3, i4, i5, i6, i7, i8, i9, i10, i11, i12, i13, i14, i15, i16⟩ := ih (delayCheckButton 2000 false env s)
    obtain ⟨d1, d2, d3, d4, d5, d6, d7, d8, d9, d10, d11, d12, d13, d14, d15, d16⟩ := delayCheckButton_pres 2000 false env s
    exact ⟨i1.trans d1, i2.trans d2, i3.trans d3, i4.trans d4, i5.trans d5, i6.trans d6, i7.trans d7, i8.trans d8, i9.trans d9, i10.trans d10, i11.trans d11, i12.trans d12, i13.trans d13, i14.trans d14, i15.trans d15, i16.trans d16⟩

theorem dcb_servoPos (dt : Nat) (full : Bool) (env : Env) (s : Sys) :
    (delayCheckButton dt full env s).servoPos = s.servoPos :=
  (delayCheckButton_pres dt full env s).1

theorem dcb_servoStep (dt : Nat) (full : Bool) (env : Env) (s : Sys) :
    (delayCheckButton dt full env s).servoStep = s.servoStep :=
  (delayCheckButton_pres dt full env s).2.1

theorem dcb_servoChecked (dt : Nat) (full : Bool) (env : Env) (s : Sys) :
    (delayCheckButton dt full env s).servoChecked = s.servoChecked :=
  (delayCheckButton_pres dt full env s).2.2.1

theorem dcb_servoActive (dt : Nat) (full : Bool) (env : Env) (s : Sys) :
    (delayCheckButton dt full env s).servoActive = s.servoActive :=
  (delayCheckButton_pres dt full env s).2.2.2.1

theorem dcb_scaleActive (dt : Nat) (full : Bool) (env : Env) (s : Sys) :
    (delayCheckButton dt full env s).scaleActive = s.scaleActive :=
  (delayCheckButton_pres dt full env s).2.2.2.2.1

theorem dcb_cardExists (dt : Nat) (full : Bool) (env : Env) (s : Sys) :
    (delayCheckButton dt full env s).cardExists = s.cardExists :=
  (delayCheckButton_pres dt full env s).2.2.2.2.2.1

theorem dcb_maxFileNum (dt : Nat) (full : Bool) (env : Env) (s : Sys) :
    (delayCheckButton dt full env s).maxFileNum = s.maxFileNum :=
  (delayCheckButton_pres dt full env s).2.2.2.2.2.2.1

theorem dcb_activeFileName (dt : Nat) (full : Bool) (env : Env) (s : Sys) :
    (delayCheckButton dt full env s).activeFileName = s.activeFileName :=
  (delayCheckButton_pres dt full env s).2.2.2.2.2.2.2.1

theorem dcb_fileOpen (dt : Nat) (full : Bool) (env : Env) (s : Sys) :
    (delayCheckButton dt full env s).fileOpen = s.fileOpen :=
  (delayCheckButton_pres dt full env s).2.2.2.2.2.2.2.2.1

theorem dcb_fileRows (dt : Nat) (full : Bool) (env : Env) (s : Sys) :
    (delayCheckButton dt full env s).fileRows = s.fileRows :=
  (delayCheckButton_pres dt full env s).2.2.2.2.2.2.2.2.2.1

theorem dcb_maxForce (dt : Nat) (full : Bool) (env : Env) (s : Sys) :
    (delayCheckButton dt full env s).maxForce = s.maxForce :=
  (delayCheckButton_pres dt full env s).2.2.2.2.2.2.2.2.2.2.1

theorem dcb_unitForce (dt : Nat) (full : Bool) (env : Env) (s : Sys) :
    (delayCheckButton dt full env s).unitForce = s.unitForce :=
  (delayCheckButton_pres dt full env s).2.2.2.2.2.2.2.2.2.2.2.1

theorem dcb_scaleStartTime (dt : Nat) (full : Bool) (env : Env) (s : Sys) :
    (delayCheckButton dt full env s).scaleStartTime = s.scaleStartTime :=
  (delayCheckButton_pres dt full env s).2.2.2.2.2.2.2.2.2.2.2.2.1

theorem dcb_readTime (dt : Nat) (full : Bool) (env : Env) (s : Sys) :
    (delayCheckButton dt full env s).readTime = s.readTime :=
  (delayCheckButton_pres dt full env s).2.2.2.2.2.2.2.2.2.2.2.2.2.1

theorem dcb_forceIdx (dt : Nat) (full : Bool) (env : Env) (s : Sys) :
    (delayCheckButton dt full env s).forceIdx = s.forceIdx :=
  (delayCheckButton_pres dt full env s).2.2.2.2.2.2.2.2.2.2.2.2.2.2.1

theorem dcb_probeRuns (dt : Nat) (full : Bool) (env : Env) (s : Sys) :
    (delayCheckButton dt full env s).probeRuns = s.probeRuns :=
  (delayCheckButton_pres dt full env s).2.2.2.2.2.2.2.2.2.2.2.2.2.2.2

theorem ramp_servoStep (fuel : Nat) (p : Int) (d : Nat) (env : Env) (s : Sys) :
    (rampLoop fuel p d env s).servoStep = s.servoStep :=
  (rampLoop_pres fuel p d env s).1

theorem ramp_servoChecked (fuel : Nat) (p : Int) (d : Nat) (env : Env) (s : Sys) :
    (rampLoop fuel p d env s).servoChecked = s.servoChecked :=
  (rampLoop_pres fuel p d env s).2.1

theorem ramp_servoActive (fuel : Nat) (p : Int) (d : Nat) (env : Env) (s : Sys) :
    (rampLoop fuel p d env s).servoActive = s.servoActive :=
  (rampLoop_pres fuel p d env s).2.2.1

theorem ramp_scaleActive (fuel : Nat) (p : Int) (d : Nat) (env : Env) (s : Sys) :
    (rampLoop fuel p d env s).scaleActive = s.scaleActive :=
  (rampLoop_pres fuel p d env s).2.2.2.1

theorem ramp_cardExists (fuel : Nat) (p : Int) (d : Nat) (env : Env) (s : Sys) :
    (rampLoop fuel p d env s).cardExists = s.cardExists :=
  (rampLoop_pres fuel p d env s).2.2.2.2.1

theorem ramp_maxFileNum (fuel : Nat) (p : Int) (d : Nat) (env : Env) (s : Sys) :
    (rampLoop fuel p d env s).maxFileNum = s.maxFileNum :=
  (rampLoop_pres fuel p d env s).2.2.2.2.2.1

theorem ramp_activeFileName (fuel : Nat) (p : Int) (d : Nat) (env : Env) (s : Sys) :
    (rampLoop fuel p d env s).activeFileName = s.activeFileName :=
  (rampLoop_pres fuel p d env s).2.2.2.2.2.2.1

theorem ramp_fileOpen (fuel : Nat) (p : Int) (d : Nat) (env : Env) (s : Sys) :
    (rampLoop fuel p d env s).fileOpen = s.fileOpen :=
  (rampLoop_pres fuel p d env s).2.2.2.2.2.2.2.1

theorem ramp_fileRows (fuel : Nat) (p : Int) (d : Nat) (env : Env) (s : Sys) :
    (rampLoop fuel p d env s).fileRows = s.fileRows :=
  (rampLoop_pres fuel p d env s).2.2.2.2.2.2.2.2.1

theorem ramp_maxForce (fuel : Nat) (p : Int) (d : Nat) (env : Env) (s : Sys) :
    (rampLoop fuel p d env s).maxForce = s.maxForce :=
  (rampLoop_pres fuel p d env s).2.2.2.2.2.2.2.2.2.1

theorem ramp_unitForce (fuel : Nat) (p : Int) (d : Nat) (env : Env) (s : Sys) :
    (rampLoop fuel p d env s).unitForce = s.unitForce :=
  (rampLoop_pres fuel p d env s).2.2.2.2.2.2.2.2.2.2.1

theorem ramp_scaleStartTime (fuel : Nat) (p : Int) (d : Nat) (env : Env) (s : Sys) :
    (rampLoop fuel p d env s).scaleStartTime = s.scaleStartTime :=
  (rampLoop_pres fuel p d env s).2.2.2.2.2.2.2.2.2.2.2.1

theorem ramp_readTime (fuel : Nat) (p : Int) (d : Nat) (env : Env) (s : Sys) :
    (rampLoop fuel p d env s).readTime = s.readTime :=
  (rampLoop_pres fuel p d env s).2.2.2.2.2.2.2.2.2.2.2.2.1

theorem ramp_forceIdx (fuel : Nat) (p : Int) (d : Nat) (env : Env) (s : Sys) :
    (rampLoop fuel p d env s).forceIdx = s.forceIdx :=
  (rampLoop_pres fuel p d env s).2.2.2.2.2.2.2.2.2.2.2.2.2.1

theorem ramp_probeRuns (fuel : Nat) (p : Int) (d : Nat) (env : Env) (s : Sys) :
    (rampLoop fuel p d env s).probeRuns = s.probeRuns :=
  (rampLoop_pres fuel p d env s).2.2.2.2.2.2.2.2.2.2.2.2.2.2

theorem scroll_servoPos (k : Nat) (env : Env) (s : Sys) :
    (lcdScroll k env s).servoPos = s.servoPos :=
  (lcdScroll_pres k env s).1

theorem scroll_servoStep (k : Nat) (env : Env) (s : Sys) :
    (lcdScroll k env s).servoStep = s.servoStep :=
  (lcdScroll_pres k env s).2.1

theorem scroll_servoChecked (k : Nat) (env : Env) (s : Sys) :
    (lcdScroll k env s).servoChecked = s.servoChecked :=
  (lcdScroll_pres k env s).2.2.1

theorem scroll_servoActive (k : Nat) (env : Env) (s : Sys) :
    (lcdScroll k env s).servoActive = s.servoActive :=
  (lcdScroll_pres k env s).2.2.2.1

theorem scroll_scaleActive (k : Nat) (env : Env) (s : Sys) :
    (lcdScroll k env s).scaleActive = s.scaleActive :=
  (lcdScroll_pres k env s).2.2.2.2.1

theorem scroll_cardExists (k : Nat) (env : Env) (s : Sys) :
    (lcdScroll k env s).cardExists = s.cardExists :=
  (lcdScroll_pres k env s).2.2.2.2.2.1

theorem scroll_maxFileNum (k : Nat) (env : Env) (s : Sys) :
    (lcdScroll k env s).maxFileNum = s.maxFileNum :=
  (lcdScroll_pres k env s).2.2.2.2.2.2.1

theorem scroll_activeFileName (k : Nat) (env : Env) (s : Sys) :
    (lcdScroll k env s).activeFileName = s.activeFileName :=
  (lcdScroll_pres k env s).2.2.2.2.2.2.2.1

theorem scroll_fileOpen (k : Nat) (env : Env) (s : Sys) :
    (lcdScroll k env s).fileOpen = s.fileOpen :=
  (lcdScroll_pres k env s).2.2.2.2.2.2.2.2.1

theorem scroll_fileRows (k : Nat) (env : Env) (s : Sys) :
    (lcdScroll k env s).fileRows = s.fileRows :=
  (lcdScroll_pres k env s).2.2.2.2.2.2.2.2.2.1

theorem scroll_maxForce (k : Nat) (env : Env) (s : Sys) :
    (lcdScroll k env s).maxForce = s.maxForce :=
  (lcdScroll_pres k env s).2.2.2.2.2.2.2.2.2.2.1

theorem scroll_unitForce (k : Nat) (env : Env) (s : Sys) :
    (lcdScroll k env s).unitForce = s.unitForce :=
  (lcdScroll_pres k env s).2.2.2.2.2.2.2.2.2.2.2.1

theorem scroll_scaleStartTime (k : Nat) (env : Env) (s : Sys) :
    (lcdScroll k env s).scaleStartTime = s.scaleStartTime :=
  (lcdScroll_pres k env s).2.2.2.2.2.2.2.2.2.2.2.2.1

theorem scroll_readTime (k : Nat) (env : Env) (s : Sys) :
    (lcdScroll k env s).readTime = s.readTime :=
  (lcdScroll_pres k env s).2.2.2.2.2.2.2.2.2.2.2.2.2.1

theorem scroll_forceIdx (k : Nat) (env : Env) (s : Sys) :
    (lcdScroll k env s).forceIdx = s.forceIdx :=
  (lcdScroll_pres k env s).2.2.2.2.2.2.2.2.2.2.2.2.2.2.1

theorem scroll_probeRuns (k : Nat) (env : Env) (s : Sys) :
    (lcdScroll k env s).probeRuns = s.probeRuns :=
  (lcdScroll_pres k env s).2.2.2.2.2.2.2.2.2.2.2.2.2.2.2

theorem checkServo_probeRuns (env : Env) (s : Sys) :
    (checkServo env s).2.probeRuns = s.probeRuns + 1 := by
  simp only [checkServo, rampServo]
  split
  · simp [ramp_probeRuns, dcb_probeRuns, delayMs]
  · split <;> simp [ramp_probeRuns, dcb_probeRuns, delayMs]

theorem checkServo_servoChecked (env : Env) (s : Sys) :
    (checkServo env s).2.servoChecked = s.servoChecked := by
  simp only [checkServo, rampServo]
  split
  · simp [ramp_servoChecked, dcb_servoChecked, delayMs]
  · split <;> simp [ramp_servoChecked, dcb_servoChecked, delayMs]

theorem checkServo_servoActive (env : Env) (s : Sys) :
    (checkServo env s).2.servoActive = s.servoActive := by
  simp only [checkServo, rampServo]
  split
  · simp [ramp_servoActive, dcb_servoActive, delayMs]
  · split <;> simp [ramp_servoActive, dcb_servoActive, delayMs]

theorem checkServo_servoPos (env : Env) (s : Sys) :
    (checkServo env s).2.servoPos = 0 := by
  simp only [checkServo, rampServo]
  split
  · simp [delayMs]
  · split <;> simp [delayMs]

/-! ## The blocking confirmation loops -/

theorem fileWaitLoop_succ (f : Nat) (env : Env) (s : Sys) :
    fileWaitLoop (f + 1) env s
      = if s.continueFlag = false then some s
        else fileWaitLoop f env (lcdScroll 3 env s) := rfl

theorem fileWaitLoop_pres (fuel : Nat) (env : Env) (s s2 : Sys)
    (h : fileWaitLoop fuel env s = some s2) :
    s2.servoPos = s.servoPos ∧
    s2.servoStep = s.servoStep ∧
    s2.servoChecked = s.servoChecked ∧
    s2.servoActive = s.servoActive ∧
    s2.scaleActive = s.scaleActive ∧
    s2.cardExists = s.cardExists ∧
    s2.maxFileNum = s.maxFileNum ∧
    s2.activeFileName = s.activeFileName ∧
    s2.fileOpen = s.fileOpen ∧
    s2.fileRows = s.fileRows ∧
    s2.maxForce = s.maxForce ∧
    s2.unitForce = s.unitForce ∧
    s2.scaleStartTime = s.scaleStartTime ∧
    s2.readTime = s.readTime ∧
    s2.forceIdx = s.forceIdx ∧
    s2.probeRuns = s.probeRuns := by
  induction fuel generalizing s with
  | zero => exact absurd h (by simp [fileWaitLoop])
  | succ f ih =>
    rw [fileWaitLoop_succ] at h
    split at h
    · cases h
      exact ⟨rfl, rfl, rfl, rfl, rfl, rfl, rfl, rfl, rfl, rfl, rfl, rfl, rfl, rfl, rfl, rfl⟩
    · obtain ⟨i1, i2, i3, i4, i5, i6, i7, i8, i9, i10, i11, i12, i13, i14, i15, i16⟩ := ih (lcdScroll 3 env s) h
      obtain ⟨l1, l2, l3, l4, l5, l6, l7, l8, l9, l10, l11, l12, l13, l14, l15, l16⟩ := lcdScroll_pres 3 env s
      exact ⟨i1.trans l1, i2.trans l2, i3.trans l3, i4.trans l4, i5.trans l5, i6.trans l6, i7.trans l7, i8.trans l8, i9.trans l9, i10.trans l10, i11.trans l11, i12.trans l12, i13.trans l13, i14.trans l14, i15.trans l15, i16.trans l16⟩

theorem fileWaitLoop_none_high (fuel : Nat) (env : Env) (s : Sys)
    (hb : ∀ k, env.button k = true) (hs : s.continueFlag = true) :
    fileWaitLoop fuel env s = none := by
  induction fuel generalizing s with
  | zero => rfl
  | succ f ih =>
    rw [fileWaitLoop_succ, if_neg (by rw [hs]; simp)]
    exact ih _ (by rw [lcdScroll_flag_high _ _ _ hb, hs])

theorem setupCard_flag (fuel : Nat) (env : Env) (s s2 : Sys)
    (h : setupCard fuel env s = some s2) : s2.continueFlag = true := by
  simp only [setupCard] at h
  split at h
  · exact absurd h (by simp)
  · cases h; rfl

/-! ## getFileName: scan cache and exhaustion behaviour -/

theorem scanMax_aux_nonneg (entries : List (List Char)) (init : Int)
    (h : 0 ≤ init) : 0 ≤ entries.foldl scanEntry init := by
  induction entries generalizing init with
  | nil => simpa using h
  | cons e t ih =>
    rw [List.foldl_cons]
    apply ih
    simp only [scanEntry]
    split
    · exact le_trans h (le_max_right _ _)
    · exact h

theorem scanMax_nonneg (entries : List (List Char)) : 0 ≤ scanMax entries :=
  scanMax_aux_nonneg entries 0 le_rfl

theorem getFileName_eq (fuel : Nat) (env : Env) (s : Sys) :
    getFileName fuel env s
      = if 999 < scannedNum env s + 1 then
          match fileWaitLoop fuel env
              { delayMs 500 { s with maxFileNum := scannedNum env s + 1 }
                with continueFlag := true } with
          | none => none
          | some s2 =>
            some (fmtFileNum 1, { s2 with maxFileNum := 1,
                                          continueFlag := true })
        else some (fmtFileNum (scannedNum env s + 1),
               { s with maxFileNum := scannedNum env s + 1 }) := rfl

/-- C7 counterexample: with existing files whose maximum matching number
is M = 998, the first call returns t_999.csv but the second call hits
the wraparound prompt: with no press it returns no name at all, and
with a confirmation press it returns t_1.csv — never the t_1000.csv
that the claim (0 ≤ M ≤ 998) predicts. -/
theorem C7_counterexample :
    ((getFileName 3 envDir998 sysInit).map Prod.fst)
        = some ['t', '_', '9', '9', '9', '.', 'c', 's', 'v'] ∧
    ((getFileName 3 envDir998 sysInit).bind
        (fun p => getFileName 3 envDir998 p.2)) = none ∧
    (((getFileName 3 envDir998Press sysInit).bind
        (fun p => getFileName 3 envDir998Press p.2)).map Prod.fst)
        = some ['t', '_', '1', '.', 'c', 's', 'v'] := by
  decide

/-- C7 amended: for every existing file set whose matching names have
maximum number M with 0 ≤ M ≤ 997, getFileName returns t_(M+1).csv on
its first call and t_(M+2).csv on its second call, and the second call
never rescans: its result is the same for every directory environment.
(At M = 998 the second call triggers the 999-wraparound confirmation
instead.) -/
theorem C7_theorem (entries : List (List Char)) (fuel : Nat) (env : Env)
    (s : Sys) (henv : env.dir = some entries) (h0 : s.maxFileNum = 0)
    (hM : scanMax entries ≤ 997) :
    getFileName fuel env s
      = some (fmtFileNum (scanMax entries + 1),
              { s with maxFileNum := scanMax entries + 1 }) ∧
    ∀ (fuel2 : Nat) (env2 : Env),
      getFileName fuel2 env2 { s with maxFileNum := scanMax entries + 1 }
        = some (fmtFileNum (scanMax entries + 2),
                { s with maxFileNum := scanMax entries + 2 }) := by
  have hnn : 0 ≤ scanMax entries := scanMax_nonneg entries
  have hscan : scannedNum env s = scanMax entries := by
    simp [scannedNum, h0, henv]
  constructor
  · rw [getFileName_eq, hscan, if_neg (by omega)]
  · intro fuel2 env2
    have hscan2 : scannedNum env2 { s with maxFileNum := scanMax entries + 1 }
        = scanMax entries + 1 := by
      simp only [scannedNum]
      rw [if_neg (by omega)]
    rw [getFileName_eq, hscan2, if_neg (by omega)]
    rw [show scanMax entries + 1 + 1 = scanMax entries + 2 by ring]

/-- C7 witness: a directory containing exactly t_5.csv yields t_6.csv,
then t_7.csv from a second call that sees a different (empty-result)
environment. -/
theorem C7_witness :
    getFileName 0 envDir5 sysInit
      = some (fmtFileNum 6, { sysInit with maxFileNum := 6 }) ∧
    getFileName 0 envHigh { sysInit with maxFileNum := 6 }
      = some (fmtFileNum 7, { sysInit with maxFileNum := 7 }) := by
  have h := C7_theorem [['t', '_', '5', '.', 'c', 's', 'v']] 0 envDir5 sysInit
    rfl rfl (by decide)
  exact ⟨h.1, h.2 0 envHigh⟩

/-- C8: when the computed next file number exceeds 999, getFileName
returns no name as long as the button never reads LOW (the confirmation
loop never exits), and whenever it does return, the name is t_1.csv,
the cached counter is reset to 1, and the following allocation —
under any environment — yields t_2.csv. -/
theorem C8_theorem :
    (∀ (fuel : Nat) (env : Env) (s : Sys),
        999 < scannedNum env s + 1 → (∀ k, env.button k = true) →
        getFileName fuel env s = none) ∧
    (∀ (fuel : Nat) (env : Env) (s : Sys) (nm : List Char) (s2 : Sys),
        999 < scannedNum env s + 1 →
        getFileName fuel env s = some (nm, s2) →
        nm = fmtFileNum 1 ∧ s2.maxFileNum = 1 ∧ s2.continueFlag = true ∧
        ∀ (fuel2 : Nat) (env2 : Env),
          getFileName fuel2 env2 s2
            = some (fmtFileNum 2, { s2 with maxFileNum := 2 })) := by
  constructor
  · intro fuel env s hn hb
    rw [getFileName_eq, if_pos hn, fileWaitLoop_none_high _ _ _ hb rfl]
  · intro fuel env s nm s2 hn h
    rw [getFileName_eq, if_pos hn] at h
    cases hw : fileWaitLoop fuel env
        { delayMs 500 { s with maxFileNum := scannedNum env s + 1 }
          with continueFlag := true } with
    | none => rw [hw] at h; exact absurd h (by simp)
    | some sw =>
      rw [hw] at h
      have h2 := Option.some.inj h
      have hnm : nm = fmtFileNum 1 := by
        have := congrArg Prod.fst h2; simpa using this.symm
      have hs2 : s2 = { sw with maxFileNum := 1, continueFlag := true } := by
        have := congrArg Prod.snd h2; simpa using this.symm
      subst hs2
      refine ⟨hnm, rfl, rfl, ?_⟩
      intro fuel2 env2
      rw [getFileName_eq]
      have hscan2 : scannedNum env2
          { sw with maxFileNum := 1, continueFlag := true } = 1 := by
        simp [scannedNum]
      rw [hscan2, if_neg (by omega)]
      norm_num

/-- C8 witness: a cached counter of 999 blocks under an all-HIGH
button, and returns t_1.csv with the counter reset once a press
arrives. -/
theorem C8_witness :
    getFileName 2 envHigh sMax999 = none ∧
    ((getFileName 2 envAltPress sMax999).getD (fmtFileNum 1, sysInit)).1
        = fmtFileNum 1 ∧
    ((getFileName 2 envAltPress sMax999).getD
        (fmtFileNum 1, sysInit)).2.maxFileNum = 1 := by
  have happ := C8_theorem.2 2 envAltPress sMax999
      ((getFileName 2 envAltPress sMax999).getD (fmtFileNum 1, sysInit)).1
      ((getFileName 2 envAltPress sMax999).getD (fmtFileNum 1, sysInit)).2
      (by decide) (by decide)
  exact ⟨C8_theorem.1 2 envHigh sMax999 (by decide) (fun k => rfl),
         happ.1, happ.2.1⟩

/-! ## stepTest projections -/

theorem stepTest_wait_pos (s : Sys) :
    0 < 250 - min 200 (usub32 (usub32 s.clock s.scaleStartTime) s.readTime) := by
  have := Nat.min_le_left 200 (usub32 (usub32 s.clock s.scaleStartTime) s.readTime)
  omega

theorem stepTest_btnIdx (env : Env) (s : Sys) :
    (stepTest env s).btnIdx
      = (delayCheckButton
          (250 - min 200 (usub32 (usub32 s.clock s.scaleStartTime) s.readTime))
          true env s).btnIdx := by
  simp [stepTest, writeData, stepTest_wait_pos s, apply_ite Sys.btnIdx,
    apply_ite Sys.servoChecked, apply_ite Sys.servoActive,
    apply_ite Sys.servoPos, apply_ite Sys.servoStep, ite_self,
    dcb_servoPos, dcb_servoStep, dcb_servoChecked, dcb_servoActive,
    dcb_cardExists]

theorem stepTest_servoPos_auto (env : Env) (s : Sys)
    (h1 : s.servoChecked = true) (h2 : s.servoActive = true) :
    (stepTest env s).servoPos = s.servoPos + s.servoStep := by
  simp [stepTest, writeData, stepTest_wait_pos s, h1, h2,
    apply_ite Sys.servoPos, apply_ite Sys.servoStep,
    apply_ite Sys.servoChecked, apply_ite Sys.servoActive,
    apply_ite Sys.continueFlag, ite_self,
    dcb_servoPos, dcb_servoStep, dcb_servoChecked, dcb_servoActive,
    dcb_cardExists]

theorem stepTest_manual (env : Env) (s : Sys)
    (hna : ¬ (s.servoChecked = true ∧ s.servoActive = true)) :
    (stepTest env s).servoPos = s.servoPos ∧
    (stepTest env s).servoStep = s.servoStep ∧
    (stepTest env s).continueFlag
      = (delayCheckButton
          (250 - min 200 (usub32 (usub32 s.clock s.scaleStartTime) s.readTime))
          true env s).continueFlag := by
  refine ⟨?_, ?_, ?_⟩ <;>
    simp [stepTest, writeData, stepTest_wait_pos s, hna,
      apply_ite Sys.servoPos, apply_ite Sys.servoStep,
      apply_ite Sys.servoChecked, apply_ite Sys.servoActive,
      apply_ite Sys.continueFlag, ite_self,
      dcb_servoPos, dcb_servoStep, dcb_servoChecked, dcb_servoActive,
      dcb_cardExists]

theorem stepTest_auto_max (env : Env) (s : Sys)
    (h1 : s.servoChecked = true) (h2 : s.servoActive = true)
    (hmax : maxServoPos ≤ s.servoPos + s.servoStep) :
    (stepTest env s).servoStep = -2 ∧
    (stepTest env s).continueFlag
      = (delayCheckButton
          (250 - min 200 (usub32 (usub32 s.clock s.scaleStartTime) s.readTime))
          true env s).continueFlag := by
  constructor <;>
    simp [stepTest, writeData, stepTest_wait_pos s, h1, h2, hmax,
      apply_ite Sys.servoPos, apply_ite Sys.servoStep,
      apply_ite Sys.servoChecked, apply_ite Sys.servoActive,
      apply_ite Sys.continueFlag, ite_self,
      dcb_servoPos, dcb_servoStep, dcb_servoChecked, dcb_servoActive,
      dcb_cardExists]

theorem stepTest_auto_done (env : Env) (s : Sys)
    (h1 : s.servoChecked = true) (h2 : s.servoActive = true)
    (hmax : ¬ maxServoPos ≤ s.servoPos + s.servoStep)
    (hle : s.servoPos + s.servoStep ≤ 0) :
    (stepTest env s).servoStep = 0 ∧
    (stepTest env s).continueFlag = false := by
  constructor <;>
    simp [stepTest, writeData, stepTest_wait_pos s, h1, h2, hmax, hle,
      apply_ite Sys.servoPos, apply_ite Sys.servoStep,
      apply_ite Sys.servoChecked, apply_ite Sys.servoActive,
      apply_ite Sys.continueFlag, ite_self,
      dcb_servoPos, dcb_servoStep, dcb_servoChecked, dcb_servoActive,
      dcb_cardExists]

theorem stepTest_auto_mid (env : Env) (s : Sys)
    (h1 : s.servoChecked = true) (h2 : s.servoActive = true)
    (hmax : ¬ maxServoPos ≤ s.servoPos + s.servoStep)
    (hle : ¬ s.servoPos + s.servoStep ≤ 0) :
    (stepTest env s).servoStep = s.servoStep ∧
    (stepTest env s).continueFlag
      = (delayCheckButton
          (250 - min 200 (usub32 (usub32 s.clock s.scaleStartTime) s.readTime))
          true env s).continueFlag := by
  constructor <;>
    simp [stepTest, writeData, stepTest_wait_pos s, h1, h2, hmax, hle,
      apply_ite Sys.servoPos, apply_ite Sys.servoStep,
      apply_ite Sys.servoChecked, apply_ite Sys.servoActive,
      apply_ite Sys.continueFlag, ite_self,
      dcb_servoPos, dcb_servoStep, dcb_servoChecked, dcb_servoActive,
      dcb_cardExists]

theorem stepTest_rows (env : Env) (s : Sys) :
    (stepTest env s).fileRows = s.fileRows ∨
    ∃ t f, (stepTest env s).fileRows
        = s.fileRows ++ [(t, min 180 s.servoPos, f)] := by
  by_cases hc : s.cardExists = true
  · refine Or.inr ⟨usub32 (delayCheckButton
        (250 - min 200 (usub32 (usub32 s.clock s.scaleStartTime) s.readTime))
        true env s).clock s.scaleStartTime, env.force s.forceIdx, ?_⟩
    simp [stepTest, writeData, stepTest_wait_pos s, hc,
      apply_ite Sys.fileRows, apply_ite Sys.servoChecked,
      apply_ite Sys.servoActive, apply_ite Sys.servoPos,
      apply_ite Sys.servoStep, ite_self,
      dcb_servoPos, dcb_servoStep, dcb_servoChecked, dcb_servoActive,
      dcb_cardExists, dcb_fileRows, dcb_scaleStartTime, dcb_forceIdx]
  · refine Or.inl ?_
    simp [stepTest, writeData, stepTest_wait_pos s, hc,
      apply_ite Sys.fileRows, apply_ite Sys.servoChecked,
      apply_ite Sys.servoActive, apply_ite Sys.servoPos,
      apply_ite Sys.servoStep, ite_self,
      dcb_servoPos, dcb_servoStep, dcb_servoChecked, dcb_servoActive,
      dcb_cardExists, dcb_fileRows]

/-! ## Claim theorems on the cancellation flag, the wait, and the sequencer -/

/-- C4: evaluation of the bounded wait at the failing input.  With
requireFull = true, dt = 200 ms, the button pressed at the first poll
and released at the second, delayCheckButton returns immediately after
observing the release: it performs no delay at all (the clock is
unchanged) although its own documentation and the claim say the full
200 ms is always consumed.  A press-free full wait, by contrast, does
consume the full 200 ms. -/
theorem C4_theorem :
    (delayCheckButton 200 true envPressOnce sysInit).clock = sysInit.clock ∧
    (delayCheckButton 200 true envPressOnce sysInit).continueFlag = false ∧
    (delayCheckButton 200 true envHigh sysInit).clock = sysInit.clock + 200 := by
  decide

/-- C1 counterexample: stepTest drives the CancellationFlag to false on
auto-ramp completion, with a button that never reads LOW (envHigh) and
no storage in play (sStepDone.cardExists = false) — a write of false
that comes neither from the Input Monitor nor from any I/O error. -/
theorem C1_counterexample :
    sStepDone.continueFlag = true ∧ sStepDone.cardExists = false ∧
    (stepTest envHigh sStepDone).continueFlag = false := by
  decide

/-- C1 amended: in the shipped build (CONT_SYNC disabled, so no I/O
error path writes the flag) the CancellationFlag is driven from true to
false only by the Input Monitor — a LOW button poll inside
delayCheckButton — or by stepTest when the automatic ramp completes
(new position ≤ 0); and setupCard's transient false (written on
successful card init to skip the failure prompt) never escapes: it
always returns with the flag true. -/
theorem C1_theorem :
    (∀ (dt : Nat) (full : Bool) (env : Env) (s : Sys),
        s.continueFlag = true →
        (delayCheckButton dt full env s).continueFlag = false →
        ∃ k, s.btnIdx ≤ k ∧ k < (delayCheckButton dt full env s).btnIdx ∧
          env.button k = false) ∧
    (∀ (env : Env) (s : Sys),
        s.continueFlag = true →
        (stepTest env s).continueFlag = false →
        (∃ k, s.btnIdx ≤ k ∧ k < (stepTest env s).btnIdx ∧
            env.button k = false)
        ∨ (s.servoChecked = true ∧ s.servoActive = true ∧
           s.servoPos + s.servoStep ≤ 0)) ∧
    (∀ (fuel : Nat) (env : Env) (s s2 : Sys),
        setupCard fuel env s = some s2 → s2.continueFlag = true) := by
  refine ⟨delayCheckButton_flag_press, ?_, setupCard_flag⟩
  intro env s hs h
  by_cases hauto : s.servoChecked = true ∧ s.servoActive = true
  · by_cases hle : s.servoPos + s.servoStep ≤ 0
    · exact Or.inr ⟨hauto.1, hauto.2, hle⟩
    · by_cases hmax : maxServoPos ≤ s.servoPos + s.servoStep
      · rw [(stepTest_auto_max env s hauto.1 hauto.2 hmax).2] at h
        rw [stepTest_btnIdx]
        exact Or.inl (delayCheckButton_flag_press _ _ _ _ hs h)
      · rw [(stepTest_auto_mid env s hauto.1 hauto.2 hmax hle).2] at h
        rw [stepTest_btnIdx]
        exact Or.inl (delayCheckButton_flag_press _ _ _ _ hs h)
  · rw [(stepTest_manual env s hauto).2.2] at h
    rw [stepTest_btnIdx]
    exact Or.inl (delayCheckButton_flag_press _ _ _ _ hs h)

/-- C1 witness: the amended characterisation applied to the concrete
ramp-completion state: the non-button source is the auto-ramp
completion disjunct. -/
theorem C1_witness :
    (∃ k, sStepDone.btnIdx ≤ k ∧ k < (stepTest envHigh sStepDone).btnIdx ∧
        envHigh.button k = false)
    ∨ (sStepDone.servoChecked = true ∧ sStepDone.servoActive = true ∧
       sStepDone.servoPos + sStepDone.servoStep ≤ 0) :=
  C1_theorem.2.1 envHigh sStepDone rfl (by decide)

/-- C2 counterexample: both a bounded wait and the probe observe a
cancellation (press at the first poll, release at the second) and
return control with the CancellationFlag still false — neither resets
it to true before returning. -/
theorem C2_counterexample :
    (delayCheckButton 200 false envPressOnce sysInit).continueFlag = false ∧
    (checkServo envPressOnce sysInit).2.continueFlag = false := by
  decide

/-- C2 amended: the waits, ramps and the probe leave the flag false
after a cancellation; the reset to "continue" is performed by the
consuming branch of loop() — whenever the consume block (toggle
scaleActive, run startTest or endTest, restore the flag) completes, the
flag is true, so one press still cancels exactly one pending
operation at the loop level. -/
theorem C2_theorem (fuel : Nat) (env : Env) (s s2 : Sys)
    (h : loopConsume fuel env s = some s2) : s2.continueFlag = true := by
  simp only [loopConsume] at h
  split at h
  · split at h
    · simp at h
    · cases h; rfl
  · cases h
    next hf => simpa using hf

/-- C2 witness: the consume block applied to a cancelled mid-test
state returns with the flag reset to true. -/
theorem C2_witness :
    ((loopConsume 0 envHigh sStopPending).getD sysInit).continueFlag = true :=
  C2_theorem 0 envHigh sStopPending
    ((loopConsume 0 envHigh sStopPending).getD sysInit) (by decide)

/-- C5 counterexample: a running auto test at position 10 is cancelled
by a button press during the sampling wait; two loop() iterations
later the sequencer is back in the idle state (scaleActive = false)
with servoPos = 12, not 0. -/
theorem C5_counterexample :
    (((loopIter 2 envPressOnce sRunMid).bind (loopIter 2 envPressOnce)).map
        (fun t => (t.scaleActive, t.servoPos))) = some (false, 12) := by
  decide

/-- C5 amended: endTest never touches servoPos, so the position seen in
idle is whatever the session left: after a session that ends by the
auto ramp completing on its own (position + step = 0 at the final
tick) the position is exactly 0, but a mid-test cancellation leaves
the last commanded position, which may be nonzero. -/
theorem C5_theorem :
    (∀ s : Sys, (endTest s).servoPos = s.servoPos) ∧
    (∀ (env : Env) (s : Sys),
        s.servoChecked = true → s.servoActive = true →
        s.servoPos + s.servoStep = 0 →
        (stepTest env s).servoPos = 0 ∧
        (stepTest env s).continueFlag = false) := by
  constructor
  · intro s
    unfold endTest delayMs
    split <;> rfl
  · intro env s h1 h2 h3
    have hmax : ¬ maxServoPos ≤ s.servoPos + s.servoStep := by
      rw [h3]; decide
    refine ⟨?_, (stepTest_auto_done env s h1 h2 hmax (le_of_eq h3)).2⟩
    rw [stepTest_servoPos_auto env s h1 h2, h3]

/-- C5 witness: endTest preserves the position of a cancelled state,
and the final tick of a completing ramp parks the servo at 0. -/
theorem C5_witness :
    (endTest sStopPending).servoPos = sStopPending.servoPos ∧
    (stepTest envHigh sStepDone).servoPos = 0 ∧
    (stepTest envHigh sStepDone).continueFlag = false :=
  ⟨C5_theorem.1 sStopPending,
   (C5_theorem.2 envHigh sStepDone rfl rfl (by decide)).1,
   (C5_theorem.2 envHigh sStepDone rfl rfl (by decide)).2⟩

/-! ## startTest and the probe-once question -/

theorem getFileName_pres (fuel : Nat) (env : Env) (s : Sys) (nm : List Char)
    (s1 : Sys) (h : getFileName fuel env s = some (nm, s1)) :
    s1.probeRuns = s.probeRuns ∧ s1.servoChecked = s.servoChecked ∧
    s1.servoActive = s.servoActive := by
  rw [getFileName_eq] at h
  split at h
  · cases hw : fileWaitLoop fuel env
        { delayMs 500 { s with maxFileNum := scannedNum env s + 1 }
          with continueFlag := true } with
    | none => rw [hw] at h; exact absurd h (by simp)
    | some sw =>
      rw [hw] at h
      have h2 := Option.some.inj h
      have hs1 : s1 = { sw with maxFileNum := 1, continueFlag := true } := by
        have := congrArg Prod.snd h2; exact this.symm
      obtain ⟨q1, q2, q3, q4, q5, q6, q7, q8, q9, q10, q11, q12, q13, q14,
              q15, q16⟩ := fileWaitLoop_pres fuel env _ sw hw
      subst hs1
      exact ⟨q16, q3, q4⟩
  · have h2 := Option.some.inj h
    have hs1 : s1 = { s with maxFileNum := scannedNum env s + 1 } := by
      have := congrArg Prod.snd h2; exact this.symm
    subst hs1
    exact ⟨rfl, rfl, rfl⟩

theorem startTestTail_probe (env : Env) (sw : Sys) :
    ((sw.servoChecked = false ∧ sw.servoActive = true) →
      (startTestTail env sw).probeRuns = sw.probeRuns + 1 ∧
      (startTestTail env sw).servoChecked
        = (checkServo env (delayMs 3000 sw)).1) ∧
    (¬ (sw.servoChecked = false ∧ sw.servoActive = true) →
      (startTestTail env sw).probeRuns = sw.probeRuns ∧
      (startTestTail env sw).servoChecked = sw.servoChecked) := by
  constructor <;> intro hc <;>
    constructor <;>
      simp [startTestTail, delayMs, hc, checkServo_probeRuns,
        checkServo_servoChecked]

theorem startTest_tail_conclusions (env : Env) (s sw : Sys)
    (hA : sw.probeRuns = s.probeRuns) (hB : sw.servoChecked = s.servoChecked)
    (hC : sw.servoActive = s.servoActive) :
    (s.servoChecked = true → (startTestTail env sw).probeRuns = s.probeRuns ∧
        (startTestTail env sw).servoChecked = true) ∧
    (s.servoChecked = false → s.servoActive = true →
        (startTestTail env sw).probeRuns = s.probeRuns + 1) ∧
    ((startTestTail env sw).probeRuns = s.probeRuns ∨
     (startTestTail env sw).probeRuns = s.probeRuns + 1) := by
  by_cases hc : sw.servoChecked = false ∧ sw.servoActive = true
  · obtain ⟨hp, _⟩ := (startTestTail_probe env sw).1 hc
    refine ⟨?_, ?_, ?_⟩
    · intro ht
      rw [hB, ht] at hc
      simp at hc
    · intro _ _
      rw [hp, hA]
    · right
      rw [hp, hA]
  · obtain ⟨hp, hchk⟩ := (startTestTail_probe env sw).2 hc
    refine ⟨?_, ?_, ?_⟩
    · intro ht
      exact ⟨by rw [hp, hA], by rw [hchk, hB, ht]⟩
    · intro hf ha
      exact absurd ⟨by rw [hB, hf], by rw [hC, ha]⟩ hc
    · left
      rw [hp, hA]

/-- C3 counterexample: with auto-detection enabled and a fresh
power-cycle state, the operator skips the probe (press during the skip
window); the probe has then run once, and a second test start runs it
again — probeRuns reaches 2 within the same power-cycle, refuting "at
most once per power-cycle regardless of the probe's result". -/
theorem C3_counterexample :
    ((startTest 1 envAltPress sysInit).map Sys.probeRuns = some 1) ∧
    (((startTest 1 envAltPress sysInit).bind (startTest 1 envAltPress)).map
        Sys.probeRuns = some 2) := by
  decide

/-- C3 amended: each test start runs the probe at most once, and skips
it entirely when servoChecked is already true (leaving it true, so once
the probe has reported "present" no later start in the power-cycle runs
it again); but when servoChecked is still false and auto mode is
active — i.e. after "absent" or "skipped" results — the probe runs
again on the next test start. -/
theorem C3_theorem (fuel : Nat) (env : Env) (s s2 : Sys)
    (h : startTest fuel env s = some s2) :
    (s.servoChecked = true → s2.probeRuns = s.probeRuns ∧
        s2.servoChecked = true) ∧
    (s.servoChecked = false → s.servoActive = true →
        s2.probeRuns = s.probeRuns + 1) ∧
    (s2.probeRuns = s.probeRuns ∨ s2.probeRuns = s.probeRuns + 1) := by
  simp only [startTest] at h
  split at h
  · simp at h
  · next sw heq =>
    cases h
    split at heq
    · split at heq
      · simp at heq
      · next nm s1 heq2 =>
        split at heq
        · cases heq
          obtain ⟨g1, g2, g3⟩ := getFileName_pres fuel env _ nm s1 heq2
          exact startTest_tail_conclusions env s _ g1 g2 g3
        · cases heq
          obtain ⟨g1, g2, g3⟩ := getFileName_pres fuel env _ nm s1 heq2
          exact startTest_tail_conclusions env s _ g1 g2 g3
    · cases heq
      exact startTest_tail_conclusions env s _ rfl rfl rfl

/-- C3 witness: a start with servoChecked already true leaves probeRuns
unchanged and servoChecked true. -/
theorem C3_witness :
    ((startTest 1 envHigh sStepDone).getD sysInit).probeRuns
        = sStepDone.probeRuns ∧
    ((startTest 1 envHigh sStepDone).getD sysInit).servoChecked = true :=
  (C3_theorem 1 envHigh sStepDone
    ((startTest 1 envHigh sStepDone).getD sysInit) (by decide)).1 rfl

/-- C9: under the actuator invariant that holds throughout a session
(position nonnegative and even, a descending step only above the floor,
step one of −2/0/2), every CSV data row present after a sampling tick
is either an old row or carries a position field clamped into [0,180];
when the internal position exceeds 180 (the hold margin) the appended
field is exactly 180; and the invariant is preserved by the tick. -/
theorem C9_theorem (env : Env) (s : Sys)
    (hpos : 0 ≤ s.servoPos) (hdvd : 2 ∣ s.servoPos)
    (hdown : s.servoStep = -2 → 2 ≤ s.servoPos)
    (hstep : s.servoStep = -2 ∨ s.servoStep = 0 ∨ s.servoStep = 2) :
    (∀ r ∈ (stepTest env s).fileRows,
        r ∈ s.fileRows ∨ (0 ≤ r.2.1 ∧ r.2.1 ≤ 180)) ∧
    (180 < s.servoPos → ∀ r ∈ (stepTest env s).fileRows,
        r ∈ s.fileRows ∨ r.2.1 = 180) ∧
    (0 ≤ (stepTest env s).servoPos ∧ 2 ∣ (stepTest env s).servoPos ∧
     ((stepTest env s).servoStep = -2 → 2 ≤ (stepTest env s).servoPos) ∧
     ((stepTest env s).servoStep = -2 ∨ (stepTest env s).servoStep = 0 ∨
      (stepTest env s).servoStep = 2)) := by
  have hstep2 : (2 : Int) ∣ s.servoStep := by
    rcases hstep with h | h | h <;> rw [h] <;> decide
  refine ⟨?_, ?_, ?_⟩
  · rcases stepTest_rows env s with h | ⟨t, f, h⟩ <;> rw [h]
    · intro r hr
      exact Or.inl hr
    · intro r hr
      rcases List.mem_append.1 hr with hr | hr
      · exact Or.inl hr
      · rw [List.mem_singleton.1 hr]
        refine Or.inr ⟨?_, ?_⟩ <;>
        · simp
          try omega
  · intro h180
    rcases stepTest_rows env s with h | ⟨t, f, h⟩ <;> rw [h]
    · intro r hr
      exact Or.inl hr
    · intro r hr
      rcases List.mem_append.1 hr with hr | hr
      · exact Or.inl hr
      · rw [List.mem_singleton.1 hr]
        refine Or.inr ?_
        simp
        omega
  · have h192 : maxServoPos = 192 := by decide
    by_cases hauto : s.servoChecked = true ∧ s.servoActive = true
    · have hp := stepTest_servoPos_auto env s hauto.1 hauto.2
      by_cases hmax : maxServoPos ≤ s.servoPos + s.servoStep
      · have hq := (stepTest_auto_max env s hauto.1 hauto.2 hmax).1
        rw [hp, hq]
        rw [h192] at hmax
        refine ⟨by omega, by omega, fun _ => by omega, Or.inl rfl⟩
      · by_cases hle : s.servoPos + s.servoStep ≤ 0
        · have hq := (stepTest_auto_done env s hauto.1 hauto.2 hmax hle).1
          rw [hp, hq]
          have h0 : 0 ≤ s.servoPos + s.servoStep := by
            rcases hstep with h | h | h
            · have := hdown h
              omega
            · omega
            · omega
          exact ⟨h0, by omega, fun hc => absurd hc (by decide),
                 Or.inr (Or.inl rfl)⟩
        · have hq := (stepTest_auto_mid env s hauto.1 hauto.2 hmax hle).1
          rw [hp, hq]
          exact ⟨by omega, by omega, fun _ => by omega, hstep⟩
    · obtain ⟨hp, hq, _⟩ := stepTest_manual env s hauto
      rw [hp, hq]
      exact ⟨hpos, hdvd, hdown, hstep⟩

/-- C9 witness: a tick at position 190 (inside the hold margin, above
180) with storage present: the one appended row is position-clamped,
and the invariant survives the tick. -/
theorem C9_witness :
    (((stepTest envHigh sHold190).fileRows.headD (0, 0, 0))
        ∈ sHold190.fileRows ∨
      (0 ≤ ((stepTest envHigh sHold190).fileRows.headD (0, 0, 0)).2.1 ∧
       ((stepTest envHigh sHold190).fileRows.headD (0, 0, 0)).2.1 ≤ 180)) ∧
    (0 ≤ (stepTest envHigh sHold190).servoPos ∧
     2 ∣ (stepTest envHigh sHold190).servoPos ∧
     ((stepTest envHigh sHold190).servoStep = -2 →
        2 ≤ (stepTest envHigh sHold190).servoPos) ∧
     ((stepTest envHigh sHold190).servoStep = -2 ∨
      (stepTest envHigh sHold190).servoStep = 0 ∨
      (stepTest envHigh sHold190).servoStep = 2)) :=
  ⟨(C9_theorem envHigh sHold190 (by decide) (by decide) (by decide)
      (by decide)).1 ((stepTest envHigh sHold190).fileRows.headD (0, 0, 0))
      (by decide),
   (C9_theorem envHigh sHold190 (by decide) (by decide) (by decide)
      (by decide)).2.2⟩
